import Mathlib

/-!
Verification of the world-generation core in `src/terrain_generator.rs`.

Shallow embedding conventions:
* Rust `f32`/`f64` arithmetic is modelled over a `LinearOrderedField`
  (instantiated at `ℚ` for executable witnesses and at `ℝ` where the source
  uses `sqrt`, `sin`, `cos`, `powf`, `exp`, `atan2`).  Rounding error of the
  floating formats is not modelled; all constants in the source are short
  decimals, and no verified property depends on float rounding.
* The seeded generator `ChaCha8Rng` lives in an external crate; it is
  modelled as an abstract deterministic stream `ℕ → ℕ` with a position
  counter.  `gen_range`/`gen_bool` consume one stream element each; the
  concrete mapping from the raw draw to the sampled value is a fixed
  deterministic function (the verified properties never depend on the
  distribution, only on determinism and on which draws are possible).
* The Perlin noise sources live in the external `noise` crate; following
  the specification they are modelled as an abstract oracle of five
  channels, each a function `(ℝ × ℝ) → ℝ` (the spec constrains values to
  `[-1, 1]`; theorems that need this take it as a hypothesis).
* Rust `Vec` indexing that can panic is modelled with `Option` (`none` =
  panic) at the places where a panic is actually reachable; elsewhere
  in-bounds access is proved and a defaulting accessor is used.
* Rust `usize` subtraction `a - b` wraps in release mode; where the code
  can underflow (`terrain.len() - 2` on tiny grids) the wrap makes the
  loop range huge and the first body iteration indexes out of bounds, so
  the embedding returns `none` (panic) under exactly those conditions.
* `sqrt`-against-constant comparisons (`dist < c` with `dist = sqrt d2`,
  both sides nonnegative) are embedded as the equivalent squared
  comparisons `d2 < c^2`; sorting by distance is embedded as sorting by
  squared distance (`sqrt` is monotone, so order and ties agree).
-/

/-- The closed biome enumeration from the source. -/
inductive Biome where
  | DeepOcean
  | Ocean
  | Shore
  | Beach
  | Plains
  | Forest
  | Hills
  | Mountains
  | SnowPeaks
  | River
  | Lake
  | Swamp
  | Desert
deriving DecidableEq

/-- One grid cell: elevation, moisture, temperature and classified biome. -/
structure TerrainPoint (α : Type) where
  elevation : α
  moisture : α
  temperature : α
  biome : Biome
deriving DecidableEq

/-- A map label with sub-cell coordinates. -/
structure PlaceLabel (α : Type) where
  x : α
  y : α
  name : String
  feature_type : String

/-- A settlement. -/
structure City where
  x : ℕ
  y : ℕ
  name : String
  population : ℕ
deriving DecidableEq

/-- A bridge: a road cell coincident with a river cell. -/
structure Bridge where
  x : ℕ
  y : ℕ
  name : String
deriving DecidableEq

/-- A road: its cell path, a name, a type tag and its bridges. -/
structure Road where
  path : List (ℕ × ℕ)
  name : String
  road_type : String
  bridges : List Bridge

/-- The full world snapshot returned by `generate`. -/
structure TerrainMap (α : Type) where
  width : ℕ
  height : ℕ
  terrain : List (List (TerrainPoint α))
  labels : List (PlaceLabel α)
  rivers : List (List (ℕ × ℕ))
  cities : List City
  roads : List Road
  bridges : List Bridge

/-- Caller-supplied generation settings. -/
structure GenSettings (α : Type) where
  river_density : α
  city_density : α
  land_percentage : α

/-- The seeded random generator, modelled as a deterministic stream of raw
naturals with a read position (`ChaCha8Rng` is external; only determinism
matters for the verified properties). -/
structure Rng where
  stream : ℕ → ℕ
  pos : ℕ

/-- Draw one raw value and advance. -/
def Rng.next (r : Rng) : ℕ × Rng := (r.stream r.pos, ⟨r.stream, r.pos + 1⟩)

/-- Model of `rng.gen_range(lo..hi)` on integers for `lo < hi` (the caller
sites guard emptiness; an empty range panics and is modelled by the caller
returning `none` before reaching this function). -/
def genRangeNat (lo hi : ℕ) (r : Rng) : ℕ × Rng :=
  let (v, r') := r.next
  (lo + v % (hi - lo), r')

/-- Model of `rng.gen_range(lo..=hi)` on integers (inclusive). -/
def genRangeIncl (lo hi : ℕ) (r : Rng) : ℕ × Rng :=
  let (v, r') := r.next
  (lo + v % (hi + 1 - lo), r')

/-- Model of `rng.gen_range(lo..hi)` on floats: a deterministic value in
`[lo, hi)` derived from the raw draw. -/
def genRangeF {α : Type} [LinearOrderedField α] (lo hi : α) (r : Rng) : α × Rng :=
  let (v, r') := r.next
  (lo + (hi - lo) * ((v % 1024 : ℕ) : α) / 1024, r')

/-- Model of `rng.gen_bool(p)`: a deterministic boolean derived from the raw
draw, true on a fraction of draws controlled by `p`. -/
def genBool {α : Type} [LinearOrderedField α] (p : α) (r : Rng) : Bool × Rng :=
  let (v, r') := r.next
  (if ((v % 1024 : ℕ) : α) < p * 1024 then true else false, r')

/-- Rust `as usize` on a nonnegative float: truncation (negative values
saturate to zero, matching the saturating float-to-int cast). -/
def natTrunc {α : Type} [LinearOrderedField α] [FloorRing α] (x : α) : ℕ :=
  (⌊x⌋).toNat

/-- Rust `as i32` on a float: truncation toward zero. -/
def truncZ {α : Type} [LinearOrderedField α] [FloorRing α] (x : α) : ℤ :=
  if 0 ≤ x then ⌊x⌋ else -⌊-x⌋

/-- Grid cell lookup (`terrain[y][x]` where the index may be out of range). -/
def cellAt? {β : Type} (t : List (List β)) (x y : ℕ) : Option β :=
  (t.get? y).bind fun row => row.get? x

/-- Elevation at a cell, defaulting to `0` out of bounds (used only where
in-bounds access is established). -/
def elevAt {α : Type} [LinearOrderedField α] (t : List (List (TerrainPoint α))) (x y : ℕ) : α :=
  ((cellAt? t x y).map (·.elevation)).getD 0

/-- Biome at a cell, defaulting to `DeepOcean` out of bounds.  The default
is water, so every water-avoidance guard in the source fails on an
out-of-range lookup, which mirrors the fact that the source never indexes
out of range on the paths where this accessor is used. -/
def biomeAtD {α : Type} (t : List (List (TerrainPoint α))) (x y : ℕ) : Biome :=
  ((cellAt? t x y).map (·.biome)).getD Biome.DeepOcean

/-- Biome at a cell as an `Option` (for theorem statements). -/
def biomeAt? {α : Type} (t : List (List (TerrainPoint α))) (x y : ℕ) : Option Biome :=
  (cellAt? t x y).map (·.biome)

/-- Number of rows (`terrain.len()`). -/
def hOf {β : Type} (t : List (List β)) : ℕ := t.length

/-- Number of columns (`terrain[0].len()`), defaulting to 0 on an empty
grid (the callers that would panic on `terrain[0]` are modelled with
`none` before this is consulted). -/
def wOf {β : Type} (t : List (List β)) : ℕ := ((t.get? 0).map List.length).getD 0

/-- A propositional `forall` over a list (used instead of membership
implications in theorem statements). -/
def ListAll {β : Type} (p : β → Prop) : List β → Prop
  | [] => True
  | x :: xs => p x ∧ ListAll p xs

theorem listAll_iff_mem {β : Type} {p : β → Prop} :
    ∀ {l : List β}, ListAll p l ↔ ∀ x ∈ l, p x
  | [] => by simp [ListAll]
  | x :: xs => by
    simp only [ListAll, List.mem_cons]
    constructor
    · rintro ⟨hx, hxs⟩ y (rfl | hy)
      · exact hx
      · exact (listAll_iff_mem.mp hxs) y hy
    · intro h
      exact ⟨h x (Or.inl rfl), listAll_iff_mem.mpr fun y hy => h y (Or.inr hy)⟩

/-- `TerrainGenerator::determine_biome`: the fixed decision table mapping
(elevation, moisture, temperature) to a biome. -/
def determine_biome {α : Type} [LinearOrderedField α]
    (elevation moisture temperature : α) : Biome :=
  if elevation < -(2/5) then Biome.DeepOcean
  else if elevation < -(3/20) then Biome.Ocean
  else if elevation < -(1/20) then Biome.Shore
  else if elevation < 1/20 then Biome.Beach
  else if elevation < 3/20 then
    if moisture > 17/20 then Biome.Swamp
    else if moisture > 11/20 then Biome.Forest
    else if moisture < 1/4 ∧ temperature > 7/10 then Biome.Desert
    else Biome.Plains
  else if elevation < 1/4 then
    if moisture > 4/5 ∧ temperature < 1/2 then Biome.Swamp
    else if moisture > 1/2 then Biome.Forest
    else if moisture < 3/10 ∧ temperature > 3/5 then Biome.Desert
    else Biome.Plains
  else if elevation < 1/2 then Biome.Hills
  else if elevation < 3/4 then Biome.Mountains
  else Biome.SnowPeaks

/-- List element update at an index (identity out of range), mirroring an
in-place `Vec` element assignment. -/
def listModify {β : Type} (f : β → β) : ℕ → List β → List β
  | _, [] => []
  | 0, x :: xs => f x :: xs
  | n + 1, x :: xs => x :: listModify f n xs

/-- Grid cell update `terrain[y][x] = f(terrain[y][x])`. -/
def gridModify {β : Type} (f : β → β) (x y : ℕ) (t : List (List β)) : List (List β) :=
  listModify (listModify f x) y t

/-- The 8-neighbour offsets `(dx, dy)` in the iteration order of the nested
`for dy { for dx }` loops of the source (centre excluded). -/
def offsets8 : List (ℤ × ℤ) :=
  [(-1, -1), (0, -1), (1, -1), (-1, 0), (1, 0), (-1, 1), (0, 1), (1, 1)]

/-- The 9 offsets `(dx, dy)` including the centre, in source iteration
order (used by river erosion and the city water check). -/
def offsets9 : List (ℤ × ℤ) :=
  [(-1, -1), (0, -1), (1, -1), (-1, 0), (0, 0), (1, 0), (-1, 1), (0, 1), (1, 1)]

/-- Start-cell search of `generate_rivers`: up to 200 random cells, the
first with elevation in `(0.15, 0.85)` wins. -/
def riverFindStart {α : Type} [LinearOrderedField α]
    (terrain : List (List (TerrainPoint α))) : ℕ → Rng → Option (ℕ × ℕ) × Rng
  | 0, r => (none, r)
  | fuel + 1, r =>
    let xr := genRangeNat 0 (wOf terrain) r
    let yr := genRangeNat 0 (hOf terrain) xr.2
    if elevAt terrain xr.1 yr.1 > 3/20 ∧ elevAt terrain xr.1 yr.1 < 17/20 then
      (some (xr.1, yr.1), yr.2)
    else riverFindStart terrain fuel yr.2

/-- Lowest unvisited 8-neighbour scan of the river flow loop (strict
improvement over the current cell; stays put if none is lower). -/
def lowestNeighbor {α : Type} [LinearOrderedField α]
    (terrain : List (List (TerrainPoint α))) (visited : List (ℕ × ℕ))
    (x y : ℕ) : ℕ × ℕ :=
  (offsets8.foldl
    (fun (acc : α × ℕ × ℕ) d =>
      let nxz : ℤ := (x : ℤ) + d.1
      let nyz : ℤ := (y : ℤ) + d.2
      if 0 ≤ nxz ∧ nxz < (wOf terrain : ℤ) ∧ 0 ≤ nyz ∧ nyz < (hOf terrain : ℤ) then
        if ¬ visited.contains (nxz.toNat, nyz.toNat) ∧
            elevAt terrain nxz.toNat nyz.toNat < acc.1 then
          (elevAt terrain nxz.toNat nyz.toNat, nxz.toNat, nyz.toNat)
        else acc
      else acc)
    ((elevAt terrain x y : α), x, y)).2

/-- The downhill flow loop of `generate_rivers` (200 iterations maximum;
commits the river on reaching sub-sea elevation with more than 10 cells,
or on stalling with more than 8 cells below the lake-forming threshold). -/
def riverFlow {α : Type} [LinearOrderedField α]
    (terrain : List (List (TerrainPoint α))) :
    ℕ → ℕ → ℕ → List (ℕ × ℕ) → List (ℕ × ℕ) → Option (List (ℕ × ℕ))
  | 0, _, _, _, _ => none
  | fuel + 1, x, y, river, visited =>
    let river' := river ++ [(x, y)]
    let visited' := (x, y) :: visited
    let ce := elevAt terrain x y
    if ce < -(1/20) then
      if 10 < river'.length then some river' else none
    else
      let nxt := lowestNeighbor terrain visited' x y
      if nxt.1 = x ∧ nxt.2 = y then
        if 8 < river'.length ∧ ce < 1/5 then some river' else none
      else riverFlow terrain fuel nxt.1 nxt.2 river' visited'

/-- The candidate loop of `generate_rivers`: each candidate searches for a
start cell and, if found, flows downhill; committed rivers are appended. -/
def riverCandLoop {α : Type} [LinearOrderedField α]
    (terrain : List (List (TerrainPoint α))) :
    ℕ → Rng → List (List (ℕ × ℕ)) → List (List (ℕ × ℕ)) × Rng
  | 0, r, acc => (acc, r)
  | n + 1, r, acc =>
    let (st, r1) := riverFindStart terrain 200 r
    match st with
    | none => riverCandLoop terrain n r1 acc
    | some (sx, sy) =>
      match riverFlow terrain 200 sx sy [] [] with
      | none => riverCandLoop terrain n r1 acc
      | some riv => riverCandLoop terrain n r1 (acc ++ [riv])

/-- `TerrainGenerator::generate_rivers`.  `none` models the panics that are
reachable on degenerate grids: with at least one candidate river the start
search indexes `terrain[0]` (panics at height 0) and samples
`gen_range(0..width)` (panics at width 0). -/
def genRivers {α : Type} [LinearOrderedField α] [FloorRing α]
    (terrain : List (List (TerrainPoint α))) (s : GenSettings α) (r : Rng) :
    Option (List (List (ℕ × ℕ)) × Rng) :=
  if s.river_density < 1/100 then some ([], r)
  else
    let minR := natTrunc (s.river_density * 20)
    let maxR := natTrunc (s.river_density * 50)
    let nr := if minR = maxR then (minR, r) else genRangeIncl minR maxR r
    if nr.1 = 0 then some ([], nr.2)
    else if hOf terrain = 0 ∨ wOf terrain = 0 then none
    else some (riverCandLoop terrain nr.1 nr.2 [])

/-- Erosion of the 3×3 neighbourhood of a river cell (orthogonal neighbours
and the centre cell again are damped by 0.95 when above elevation -0.1). -/
def erodeNeighbor {α : Type} [LinearOrderedField α] (w h : ℕ)
    (t : List (List (TerrainPoint α))) (x y : ℕ) (d : ℤ × ℤ) :
    List (List (TerrainPoint α)) :=
  let nxz : ℤ := (x : ℤ) + d.1
  let nyz : ℤ := (y : ℤ) + d.2
  -- Rust computes `(x as i32 + dx) as usize`; a negative value wraps to a
  -- huge usize and fails the `nx < width` guard, hence the sign check here.
  if 0 ≤ nxz ∧ nxz.toNat < w ∧ 0 ≤ nyz ∧ nyz.toNat < h ∧
      elevAt t nxz.toNat nyz.toNat > -(1/10) then
    if d.1 = 0 ∨ d.2 = 0 then
      gridModify (fun p => { p with elevation := p.elevation * (19/20) }) nxz.toNat nyz.toNat t
    else t
  else t

/-- Erosion applied at one river cell: biome becomes `River`, elevation is
damped by 0.9, then the 3×3 widening pass runs. -/
def erodeCell {α : Type} [LinearOrderedField α] (w h : ℕ)
    (t : List (List (TerrainPoint α))) (c : ℕ × ℕ) :
    List (List (TerrainPoint α)) :=
  if c.1 < w ∧ c.2 < h then
    let t1 := gridModify
      (fun p => { p with biome := Biome.River, elevation := p.elevation * (9/10) }) c.1 c.2 t
    offsets9.foldl (fun tt d => erodeNeighbor w h tt c.1 c.2 d) t1
  else t

/-- The river-erosion pass of `generate` (applied to every cell of every
committed river, in order). -/
def erode {α : Type} [LinearOrderedField α] (w h : ℕ)
    (t : List (List (TerrainPoint α))) (rivers : List (List (ℕ × ℕ))) :
    List (List (TerrainPoint α)) :=
  rivers.foldl (fun tt riv => riv.foldl (erodeCell w h) tt) t

/-- The biomes a city cell may have (`generate_cities` candidate filter). -/
def cityBiomeCandidate : Biome → Bool
  | Biome.Plains => true
  | Biome.Hills => true
  | Biome.Forest => true
  | Biome.Desert => true
  | Biome.Beach => true
  | _ => false

/-- The water biomes rejected for the city cell itself. -/
def isWaterBiome : Biome → Bool
  | Biome.Ocean => true
  | Biome.DeepOcean => true
  | Biome.Lake => true
  | Biome.Shore => true
  | _ => false

/-- The 3×3 scan of `generate_cities` that rejects a candidate whose own
cell is water (only the centre offset can reject; transcribed as written). -/
def cityCellWaterCheck {α : Type} (t : List (List (TerrainPoint α))) (x y : ℕ) : Bool :=
  offsets9.all fun d =>
    let nxz : ℤ := (x : ℤ) + d.1
    let nyz : ℤ := (y : ℤ) + d.2
    if 0 ≤ nxz ∧ nxz.toNat < wOf t ∧ 0 ≤ nyz ∧ nyz.toNat < hOf t then
      ¬(d.1 = 0 ∧ d.2 = 0 ∧ isWaterBiome (biomeAtD t nxz.toNat nyz.toNat))
    else true

/-- The candidate pool of `generate_cities`: land cells at least 2 cells
from every map edge whose biome is settlement-suitable. -/
def validPositions {α : Type} (t : List (List (TerrainPoint α))) : List (ℕ × ℕ) :=
  (List.range' 2 (hOf t - 2 - 2)).foldl
    (fun acc y =>
      (List.range' 2 (wOf t - 2 - 2)).foldl
        (fun acc2 x =>
          if cityBiomeCandidate (biomeAtD t x y) ∧ cityCellWaterCheck t x y then
            acc2 ++ [(x, y)]
          else acc2)
        acc)
    []

/-- Tier counts (major, medium, small) of `generate_cities`, scaled by the
city density and the available-land factor, capped at 10/25/70. -/
def cityCounts {α : Type} [LinearOrderedField α] [FloorRing α]
    (s : GenSettings α) (landFactor : α) : ℕ × ℕ × ℕ :=
  let nMajor := if s.city_density < 1/10 then 0
    else min (natTrunc ((s.city_density - 1/10) * 10 * landFactor * 2)) 10
  let nMedium := if s.city_density < 1/20 then 0
    else min (natTrunc ((s.city_density - 1/20) * 25 * landFactor * 2)) 25
  let nTowns := min (natTrunc (s.city_density * 70 * landFactor * 2)) 70
  (nMajor, nMedium, nTowns)

/-- A run of uniform population draws (`gen_range(lo..hi)` per tier entry). -/
def drawList (lo hi : ℕ) : ℕ → Rng → List ℕ × Rng
  | 0, r => ([], r)
  | n + 1, r =>
    let (v, r1) := genRangeNat lo hi r
    let (rest, r2) := drawList lo hi n r1
    (v :: rest, r2)

/-- Biome-suitability test of the placement loop (`is_major` short-circuits
the coastal draw, matching `is_major || gen_bool(0.7)`). -/
def suitableCheck (α : Type) [LinearOrderedField α]
    (b : Biome) (isMajor : Bool) (r : Rng) : Bool × Rng :=
  match b with
  | Biome.Plains => (true, r)
  | Biome.Beach => if isMajor then (true, r) else genBool (7/10 : α) r
  | Biome.Shore => if isMajor then (true, r) else genBool (7/10 : α) r
  | Biome.Hills => genBool (1/2 : α) r
  | Biome.Forest => genBool (1/5 : α) r
  | _ => (false, r)

/-- The spacing scan of the placement loop over already-placed settlements,
in placement order.  Returns `(too_close, grid_aligned, min_dist, rng)`;
`min_dist` is the running mutable minimum-distance variable (relaxed to 8
by the suburb rule and then reused for the remaining comparisons, exactly
as in the source).  Distances are compared squared. -/
def spacingLoop {α : Type} [LinearOrderedField α]
    (numMajor : ℕ) (isMajor isMedium : Bool) (x y : ℕ) :
    List (ℕ × ℕ) → ℕ → α → Rng → Bool × Bool × α × Rng
  | [], _, minDist, r => (false, false, minDist, r)
  | (cx, cy) :: rest, i, minDist, r =>
    let dx : α := (x : α) - (cx : α)
    let dy : α := (y : α) - (cy : α)
    let d2 : α := dx * dx + dy * dy
    if (|dx| < 3 ∨ |dy| < 3) ∧ d2 < 1600 then
      (false, true, minDist, r)
    else
      if isMajor = false ∧ isMedium = false ∧ i < numMajor then
        if d2 < 36 then (true, false, minDist, r)
        else
          let (minDist', r') :=
            if d2 < 144 then
              let (b, r'') := genBool (3/10 : α) r
              (if b then (8 : α) else minDist, r'')
            else (minDist, r)
          if d2 < minDist' * minDist' then (true, false, minDist', r')
          else spacingLoop numMajor isMajor isMedium x y rest (i + 1) minDist' r'
      else
        if d2 < minDist * minDist then (true, false, minDist, r)
        else spacingLoop numMajor isMajor isMedium x y rest (i + 1) minDist r

/-- `TerrainGenerator::generate_city_name` (word-list combination driven by
the index and the generator). -/
def genCityName (index : ℕ) (r : Rng) : String × Rng :=
  let prefixes := ["New", "Port", "Fort", "Saint", "North", "South", "East", "West", "Old", ""]
  let firstParts := ["Oak", "River", "Lake", "Hill", "Green", "White", "Black", "Gold", "Silver",
                     "Spring", "Summer", "Winter", "Mill", "Fair", "Clear", "Bright"]
  let secondParts := ["haven", "bridge", "vale", "crest", "shore", "field", "gate", "wells",
                      "cross", "wood", "meadow", "ridge", "view", "hill", "brook"]
  let citySuffixes := ["ton", "ville", "burg", "shire", "ford", "mouth", "stead", "ham", "thorpe"]
  let cityTypes := [" City", " Town", "", "", ""]
  let (prefixChance, r1) := genBool (2/5 : ℚ) r
  let (d1, r2) := genRangeNat 0 4 r1
  let firstIdx := (index * 3 + d1) % firstParts.length
  let (d2, r3) := genRangeNat 0 3 r2
  let secondIdx := (index * 5 + d2) % secondParts.length
  let (compound, r4) := genBool (3/5 : ℚ) r3
  let (baseName, r5) :=
    if compound then
      let (d3, r') := genRangeNat 0 2 r4
      let suffix := citySuffixes.getD ((index * 7 + d3) % citySuffixes.length) ""
      (firstParts.getD firstIdx "" ++ secondParts.getD secondIdx "" ++ suffix, r')
    else
      (firstParts.getD firstIdx "" ++ secondParts.getD secondIdx "", r4)
  let (withPrefix, r6) :=
    if prefixChance then
      let (dp, r') := genRangeNat 0 prefixes.length r5
      let pfx := prefixes.getD dp ""
      (if pfx = "" then baseName else pfx ++ " " ++ baseName, r')
    else (baseName, r5)
  let (dt, r7) := genRangeNat 0 cityTypes.length r6
  (withPrefix ++ cityTypes.getD dt "", r7)

/-- One settlement's placement attempts (fuel runs in lockstep with the
`attempts < 150` counter). -/
def cityAttemptLoop {α : Type} [LinearOrderedField α]
    (t : List (List (TerrainPoint α))) (valid : List (ℕ × ℕ))
    (numMajor : ℕ) (isMajor isMedium : Bool) (pop : ℕ) (cityIdx : ℕ)
    (placed : List (ℕ × ℕ)) : ℕ → ℕ → Rng → Option City × Rng
  | 0, _, r => (none, r)
  | fuel + 1, attempts, r =>
    if attempts < 150 ∧ valid ≠ [] then
      let pr := genRangeNat 0 valid.length r
      let xy := valid.getD pr.1 (0, 0)
      let sr := suitableCheck α (biomeAtD t xy.1 xy.2) isMajor pr.2
      if sr.1 = false then
        cityAttemptLoop t valid numMajor isMajor isMedium pop cityIdx placed fuel (attempts + 1) sr.2
      else
        let minDist : α := if isMajor then 100 else if isMedium then 60 else 40
        let res := spacingLoop numMajor isMajor isMedium xy.1 xy.2 placed 0 minDist sr.2
        if res.2.1 ∧ attempts < 100 then
          cityAttemptLoop t valid numMajor isMajor isMedium pop cityIdx placed fuel
            (attempts + 1) res.2.2.2
        else if res.1 = false then
          let nmr := genCityName cityIdx res.2.2.2
          (some ⟨xy.1, xy.2, nmr.1, pop⟩, nmr.2)
        else
          cityAttemptLoop t valid numMajor isMajor isMedium pop cityIdx placed fuel
            (attempts + 1) res.2.2.2
    else (none, r)

/-- The per-settlement loop of `generate_cities`: settlements in descending
importance, each with up to 150 placement attempts; failures are skipped. -/
def cityPlaceAll {α : Type} [LinearOrderedField α]
    (t : List (List (TerrainPoint α))) (valid : List (ℕ × ℕ))
    (numMajor numMedium : ℕ) :
    List ℕ → ℕ → List City → List (ℕ × ℕ) → Rng → List City × Rng
  | [], _, cities, _, r => (cities, r)
  | pop :: rest, idx, cities, placed, r =>
    let isMajor := decide (idx < numMajor)
    let isMedium := decide (idx < numMajor + numMedium)
    let ar := cityAttemptLoop t valid numMajor isMajor isMedium pop cities.length placed 150 0 r
    match ar.1 with
    | none => cityPlaceAll t valid numMajor numMedium rest (idx + 1) cities placed ar.2
    | some c =>
      cityPlaceAll t valid numMajor numMedium rest (idx + 1)
        (cities ++ [c]) (placed ++ [(c.x, c.y)]) ar.2

/-- `TerrainGenerator::generate_cities`.  `none` models the reachable
panics: on grids with fewer than 2 rows the `terrain.len()-2` bound wraps
and the first row access panics, and on tall grids with fewer than 2
columns the inner `terrain[0].len()-2` bound wraps likewise. -/
def genCities {α : Type} [LinearOrderedField α] [FloorRing α]
    (t : List (List (TerrainPoint α))) (s : GenSettings α) (r : Rng) :
    Option (List City × Rng) :=
  if s.city_density < 1/100 then some ([], r)
  else if hOf t < 2 then none
  else if 5 ≤ hOf t ∧ wOf t < 2 then none
  else
    let valid := validPositions t
    if valid = [] then some ([], r)
    else
      let landFactor : α := (valid.length : α) / ((hOf t * wOf t : ℕ) : α)
      let counts := cityCounts s landFactor
      let nMajor := counts.1
      let nMedium := counts.2.1
      let nTowns := counts.2.2
      let majors := (List.range nMajor).map
        (fun i => natTrunc ((500000 : α) / ((i + 1 : ℕ) : α)))
      let mp := drawList 50000 150000 nMedium r
      let tp := drawList 5000 30000 nTowns mp.2
      some (cityPlaceAll t valid nMajor nMedium (majors ++ mp.1 ++ tp.1) 0 [] [] tp.2)

/-- A concrete generator whose raw draws are all zero (used to evaluate
the stages on closed inputs). -/
def rngZero : Rng := ⟨fun _ => 0, 0⟩

/-- A concrete all-Plains grid (every cell identical and
settlement-suitable). -/
def flatPlains (w h : ℕ) : List (List (TerrainPoint ℚ)) :=
  List.replicate h (List.replicate w ⟨1/10, 2/5, 1/2, Biome.Plains⟩)

/-- The settlement coordinates of a city-placement result (the names and
populations projected away). -/
def citiesCoords (o : Option (List City × Rng)) : Option (List (ℕ × ℕ)) :=
  o.map fun p => p.1.map fun c => (c.x, c.y)

/-- The spacing rule as the specification words it, reduced to the weakest
bound it implies for any pair of settlements: no two settlements lie
closer than the suburb floor of 8 cells (squared distances). -/
def claimMinSpacing (l : List (ℕ × ℕ)) : Prop :=
  l.Pairwise fun a b => 8 * 8 ≤ ((a.1 : ℤ) - b.1) ^ 2 + ((a.2 : ℤ) - b.2) ^ 2

/-- The five seeded coherent-noise channels (the `noise` crate's `Perlin`
instances are external; per the specification each is a pure function of
the coordinates with values in `[-1, 1]`). -/
structure Noise where
  elevation_noise : ℝ × ℝ → ℝ
  moisture_noise : ℝ × ℝ → ℝ
  temperature_noise : ℝ × ℝ → ℝ
  detail_noise : ℝ × ℝ → ℝ
  continent_noise : ℝ × ℝ → ℝ

/-- The range constraint of the noise channels stated by the spec. -/
def NoiseBounded (nz : Noise) : Prop :=
  (∀ p, |nz.elevation_noise p| ≤ 1) ∧ (∀ p, |nz.moisture_noise p| ≤ 1) ∧
  (∀ p, |nz.temperature_noise p| ≤ 1) ∧ (∀ p, |nz.detail_noise p| ≤ 1) ∧
  (∀ p, |nz.continent_noise p| ≤ 1)

/-- The all-zero noise oracle: every channel is constantly `0` (a bounded
oracle used to evaluate the elevation synthesis on closed inputs). -/
noncomputable def nzZero : Noise :=
  ⟨fun _ => 0, fun _ => 0, fun _ => 0, fun _ => 0, fun _ => 0⟩

/-- A bounded oracle whose continent channel (constantly `9/200`) selects
the archipelago formation (type 4). -/
noncomputable def nzArch : Noise :=
  ⟨fun _ => 0, fun _ => 0, fun _ => 0, fun _ => 0, fun _ => 9/200⟩

/-- `formation_type`: the seed-derived choice among the five continent
formation strategies. -/
noncomputable def formationTypeOf (nz : Noise) : ℕ :=
  natTrunc |nz.continent_noise (0.777, 0.333) * 100| % 5

/-- `has_edge_continent`: the seed-derived 25% chance that continents may
reach the map edges. -/
noncomputable def hasEdgeContinent (nz : Noise) : Bool :=
  decide ((truncZ (nz.continent_noise (0.123, 0.456) * 1000)).natAbs % 100 < 25)

/-- Angle normalisation loops of the crescent-arc branch
(`while angle_diff < 0 { += TAU }` with bounded fuel; one step suffices for
in-range noise values). -/
noncomputable def angleNormUp : ℕ → ℝ → ℝ
  | 0, v => v
  | n + 1, v => if v < 0 then angleNormUp n (v + 2 * Real.pi) else v

/-- Angle normalisation loop `while angle_diff > TAU { -= TAU }`. -/
noncomputable def angleNormDown : ℕ → ℝ → ℝ
  | 0, v => v
  | n + 1, v => if v > 2 * Real.pi then angleNormDown n (v - 2 * Real.pi) else v

/-- Volcanic island chain (formation type 0): the island loop folded over
the chain, each island raising the continent value inside its radius. -/
noncomputable def volcanicChain (nz : Noise) (land nx ny : ℝ) : ℝ → ℝ :=
  fun cv0 =>
  let chain_angle := nz.continent_noise (0.5, 0.5) * (2 * Real.pi)
  let chain_length := 0.6 + land * 0.3
  let num_islands : ℤ := 4 + truncZ (land * 6)
  let start_x := 0.5 + nz.continent_noise (1.5, 1.5) * 0.3
  let start_y := 0.5 + nz.continent_noise (2.5, 2.5) * 0.3
  (List.range num_islands.toNat).foldl
    (fun (cv : ℝ) (i : ℕ) =>
      let t := (i : ℝ) / ((num_islands : ℤ) : ℝ)
      let curve := Real.sin (t * Real.pi) * 0.1
      let ix := start_x + Real.cos chain_angle * t * chain_length + Real.sin chain_angle * curve
      let iy := start_y + Real.sin chain_angle * t * chain_length - Real.cos chain_angle * curve
      let scatter_x := nz.continent_noise ((i : ℝ) * 3, (i : ℝ) * 4) * 0.03
      let scatter_y := nz.continent_noise ((i : ℝ) * 4, (i : ℝ) * 3) * 0.03
      let dx := nx - (ix + scatter_x)
      let dy := ny - (iy + scatter_y)
      let dist := Real.sqrt (dx * dx + dy * dy)
      let size_factor := 1 - |t - 0.5| * 0.5
      let island_size := (0.03 + size_factor * 0.05) * (1 + land * 0.5)
      if dist < island_size then
        max cv ((1 - dist / island_size) ^ (1.5 : ℝ) * 0.8)
      else cv)
    cv0

/-- Tectonic ridge (formation type 1). -/
noncomputable def tectonicRidge (nz : Noise) (land nx ny fs : ℝ) : ℝ → ℝ :=
  fun cv =>
  let ridge_angle := nz.continent_noise (1, 2) * (2 * Real.pi)
  let ridge_length := 0.3 + land * 0.2
  let ridge_width := 0.2 + land * 0.15
  let cx := 0.5 + nz.continent_noise (3, 4) * 0.2
  let cy := 0.5 + nz.continent_noise (4, 3) * 0.2
  let dx := nx - cx
  let dy := ny - cy
  let rotated_x := dx * Real.cos ridge_angle - dy * Real.sin ridge_angle
  let rotated_y := dx * Real.sin ridge_angle + dy * Real.cos ridge_angle
  if |rotated_x| < ridge_length ∧ |rotated_y| < ridge_width then
    let spine_distance := |rotated_y| / ridge_width
    let along_ridge := |rotated_x| / ridge_length
    let base_height := (1 - spine_distance) * 0.8
    let ridge_variation := nz.elevation_noise (nx * 20 * fs, ny * 20 * fs) * 0.3
    let taper := 1 - along_ridge * 0.5
    max cv (base_height * taper + ridge_variation)
  else cv

/-- Crescent arc (formation type 2); `atan2(dy, dx)` is the complex
argument of `dx + i dy`. -/
noncomputable def crescentArc (nz : Noise) (land nx ny fs : ℝ) : ℝ → ℝ :=
  fun cv =>
  let arc_center_x := 0.5 + nz.continent_noise (5, 6) * 0.3
  let arc_center_y := 0.5 + nz.continent_noise (6, 5) * 0.3
  let arc_radius := 0.3 + land * 0.2
  let arc_width := 0.08 + land * 0.1
  let start_angle := nz.continent_noise (7, 8) * Real.pi
  let arc_span := Real.pi * (0.5 + land * 0.5)
  let dx := nx - arc_center_x
  let dy := ny - arc_center_y
  let dist := Real.sqrt (dx * dx + dy * dy)
  let angle := Complex.arg ⟨dx, dy⟩
  let angle_diff := angleNormDown 64 (angleNormUp 64 (angle - start_angle))
  if angle_diff < arc_span ∧ |dist - arc_radius| < arc_width then
    let radial_factor := 1 - |dist - arc_radius| / arc_width
    max cv (radial_factor * 0.7 + nz.elevation_noise (nx * 15 * fs, ny * 15 * fs) * 0.3)
  else cv

/-- Multi-plate continent (formation type 3). -/
noncomputable def multiPlate (nz : Noise) (land nx ny fs : ℝ) : ℝ → ℝ :=
  fun cv0 =>
  let num_plates : ℤ := 2 + truncZ (land * 2)
  let cv1 := (List.range num_plates.toNat).foldl
    (fun (cv : ℝ) (p : ℕ) =>
      let plate_offset := (p : ℝ) * 50
      let px := 0.5 + nz.continent_noise (plate_offset * 0.3, plate_offset * 0.4) * 0.4
      let py := 0.5 + nz.continent_noise (plate_offset * 0.4, plate_offset * 0.3) * 0.4
      let plate_size := 0.2 + |nz.continent_noise (plate_offset * 0.5, plate_offset * 0.6)| * 0.2
      let dx := nx - px
      let dy := ny - py
      let dist := Real.sqrt (dx * dx + dy * dy)
      let boundary_noise := nz.elevation_noise (nx * 8 * fs, ny * 8 * fs) * 0.15
                          + nz.detail_noise (nx * 15 * fs, ny * 15 * fs) * 0.1
      let effective_size := plate_size + boundary_noise
      if dist < effective_size then
        let plate_height := (1 - dist / effective_size) * 0.5
        let rift_noise := nz.continent_noise (nx * 20 * fs, ny * 20 * fs)
        let near_other_plate := (List.range num_plates.toNat).any fun (other_p : ℕ) =>
          decide (other_p ≠ p) &&
          (let other_offset := (other_p : ℝ) * 50
           let opx := 0.5 + nz.continent_noise (other_offset * 0.3, other_offset * 0.4) * 0.4
           let opy := 0.5 + nz.continent_noise (other_offset * 0.4, other_offset * 0.3) * 0.4
           let odist := Real.sqrt ((nx - opx) ^ 2 + (ny - opy) ^ 2)
           let other_size := 0.2 + |nz.continent_noise (other_offset * 0.5, other_offset * 0.6)| * 0.2
           decide (odist < other_size + 0.05))
        let height := if near_other_plate ∧ rift_noise > 0.2 then plate_height + 0.3
                      else if rift_noise < -0.3 then plate_height * 0.5
                      else plate_height
        max cv height
      else cv)
    cv0
  if land > 0.3 then
    let isthmus_noise := nz.elevation_noise (nx * 6 * fs, ny * 6 * fs)
    if isthmus_noise > 0.4 ∧ cv1 > -0.5 then max cv1 0.3 else cv1
  else cv1

/-- Complex archipelago (the default formation branch). -/
noncomputable def archipelago (nz : Noise) (land nx ny fs : ℝ) : ℝ → ℝ :=
  fun cv0 =>
  let num_major_clusters : ℤ := 1 + truncZ (land * 2)
  let cv1 := (List.range num_major_clusters.toNat).foldl
    (fun (cvc : ℝ) (c : ℕ) =>
      let cluster_seed := (c : ℝ) * 47.3
      let cx := 0.5 + nz.continent_noise (cluster_seed * 0.13, cluster_seed * 0.17) * 0.4
      let cy := 0.5 + nz.continent_noise (cluster_seed * 0.19, cluster_seed * 0.11) * 0.4
      let base_islands : ℤ := 3 + truncZ (land * 5)
      (List.range base_islands.toNat).foldl
        (fun (cv : ℝ) (i : ℕ) =>
          let island_seed := (i : ℝ) * 13.7 + cluster_seed
          let size_factor := Real.exp (-((i : ℝ) / 3))
          let size_variation := |nz.elevation_noise (island_seed * 0.23, island_seed * 0.29)|
          let scatter := size_factor * 0.2 + 0.05
          let angle := island_seed * 2.3
          let radius := scatter * (1 + size_variation)
          let ix := cx + Real.cos angle * radius + nz.continent_noise (island_seed * 0.31, island_seed * 0.37) * scatter
          let iy := cy + Real.sin angle * radius + nz.continent_noise (island_seed * 0.41, island_seed * 0.43) * scatter
          let dx := nx - ix
          let dy := ny - iy
          let shape_distortion := nz.detail_noise (nx * 50 * fs, ny * 50 * fs) * 0.3
          let effective_dist := Real.sqrt (dx * dx * (1 + shape_distortion) + dy * dy * (1 - shape_distortion))
          let island_size := (0.02 + size_factor * 0.1) * (1 + size_variation * 0.5) * Real.sqrt land
          if effective_dist < island_size then
            let profile_power := 1.5 + size_variation
            max cv ((1 - effective_dist / island_size) ^ profile_power * (0.4 + size_factor * 0.4))
          else cv)
        cvc)
    cv0
  let ridge_noise := nz.elevation_noise (nx * 5 * fs, ny * 5 * fs)
  if ridge_noise > 0.3 ∧ cv1 > -0.8 then
    max cv1 (-0.1 + ridge_noise * 0.3)
  else cv1

/-- The final land/water rescaling of `generate_elevation` (last lines of
the function). -/
noncomputable def seaLevelClamp (base_elevation sea_level : ℝ) : ℝ :=
  if base_elevation > sea_level then
    max (min ((base_elevation - sea_level) / (1 - sea_level)) 1) 0.01
  else
    max ((base_elevation - sea_level) / (1 + sea_level)) (-1)

/-- `TerrainGenerator::generate_elevation` at cell `(x, y)` of a
`width × height` grid. -/
noncomputable def generate_elevation (nz : Noise) (s : GenSettings ℝ)
    (x y w h : ℕ) : ℝ :=
  let nx : ℝ := (x : ℝ) / (w : ℝ)
  let ny : ℝ := (y : ℝ) / (h : ℝ)
  let freq_scale := min ((w : ℝ) / 160) ((h : ℝ) / 120)
  let land_target := s.land_percentage
  let formation_type := formationTypeOf nz
  let has_edge_continent := hasEdgeContinent nz
  let cv0 : ℝ := -1
  let cv1 :=
    if formation_type = 0 then volcanicChain nz land_target nx ny cv0
    else if formation_type = 1 then tectonicRidge nz land_target nx ny freq_scale cv0
    else if formation_type = 2 then crescentArc nz land_target nx ny freq_scale cv0
    else if formation_type = 3 then multiPlate nz land_target nx ny freq_scale cv0
    else archipelago nz land_target nx ny freq_scale cv0
  let cv2 :=
    if land_target > 0.2 then
      let large_scale := nz.continent_noise (nx * 3 * freq_scale, ny * 3 * freq_scale)
      let medium_scale := nz.elevation_noise (nx * 8 * freq_scale, ny * 8 * freq_scale)
      let small_scale := nz.detail_noise (nx * 25 * freq_scale, ny * 25 * freq_scale)
      let cluster_factor := (large_scale * 0.5 + 0.5) ^ (2 : ℝ)
      let island_noise := large_scale * 0.4 + medium_scale * 0.4 * cluster_factor + small_scale * 0.2
      if island_noise > 0.6 then max cv1 (island_noise * 0.8)
      else if island_noise > 0.45 ∧ cluster_factor > 0.3 then max cv1 (island_noise * 0.5)
      else if island_noise > 0.35 ∧ nz.detail_noise (nx * 100, ny * 100) > 0.5 - 0.3 * land_target then
        max cv1 (island_noise * 0.3)
      else cv1
    else cv1
  let cv3 :=
    if formation_type = 0 ∨ (formation_type = 3 ∧ has_edge_continent = false) then
      let edge_dist := min (0.5 - |nx - 0.5|) (0.5 - |ny - 0.5|)
      if edge_dist < 0.05 then cv2 * (edge_dist / 0.05) - (1 - edge_dist / 0.05) else cv2
    else cv2
  let angle := nz.continent_noise (nx * 2, ny * 2) * Real.pi
  let rotated_nx := nx * Real.cos angle - ny * Real.sin angle
  let rotated_ny := nx * Real.sin angle + ny * Real.cos angle
  let coastline := nz.elevation_noise (rotated_nx * 40 * freq_scale, rotated_ny * 40 * freq_scale) * 0.1
                 + nz.detail_noise (nx * 80 * freq_scale, ny * 80 * freq_scale) * 0.05
  let base_elevation := cv3 + coastline
  let sea_level := -0.1 + (1 - land_target) * 0.3
  seaLevelClamp base_elevation sea_level

/-- `TerrainGenerator::generate_moisture`. -/
noncomputable def generate_moisture (nz : Noise) (x y w h : ℕ) : ℝ :=
  let scale : ℝ := 1 / ((min w h : ℕ) : ℝ)
  let nx := (x : ℝ) * scale
  let ny := (y : ℝ) * scale
  let moisture := nz.moisture_noise (nx * 3, ny * 3) * 0.5 + 0.5
  min (max moisture 0) 1

/-- `TerrainGenerator::generate_temperature`. -/
noncomputable def generate_temperature (nz : Noise) (x y w h : ℕ) (elevation : ℝ) : ℝ :=
  let scale : ℝ := 1 / ((min w h : ℕ) : ℝ)
  let nx := (x : ℝ) * scale
  let ny := (y : ℝ) * scale
  let base_temp := nz.temperature_noise (nx * 2, ny * 2) * 0.5 + 0.5
  let latitude_factor := |(y : ℝ) / (h : ℝ) - 0.5| * 2
  let elevation_factor := (elevation + 1) / 2
  let temperature := base_temp * (1 - latitude_factor * 0.3) * (1 - elevation_factor * 0.4)
  min (max temperature 0) 1

/-- One synthesized terrain point. -/
noncomputable def buildPoint (nz : Noise) (s : GenSettings ℝ) (x y w h : ℕ) :
    TerrainPoint ℝ :=
  let elevation := generate_elevation nz s x y w h
  let moisture := generate_moisture nz x y w h
  let temperature := generate_temperature nz x y w h elevation
  ⟨elevation, moisture, temperature, determine_biome elevation moisture temperature⟩

/-- The initial synthesis double loop of `generate` (row-major grid of
`height` rows × `width` columns). -/
noncomputable def buildTerrain (nz : Noise) (s : GenSettings ℝ) (w h : ℕ) :
    List (List (TerrainPoint ℝ)) :=
  (List.range h).map fun y => (List.range w).map fun x => buildPoint nz s x y w h

/-- The water biomes that road pathfinding cannot enter. -/
def roadWaterBlocked : Biome → Bool
  | Biome.Ocean => true
  | Biome.DeepOcean => true
  | Biome.Lake => true
  | Biome.Shore => true
  | _ => false

/-- The water set used by the smoothing guards (note: `Shore` is absent). -/
def smoothWaterBlocked : Biome → Bool
  | Biome.Ocean => true
  | Biome.DeepOcean => true
  | Biome.Lake => true
  | _ => false

/-- Rust `f32::round().max(0.0) as usize` (round half away from zero; the
verified uses establish the sample is never at a tie). -/
noncomputable def roundUsize (x : ℝ) : ℕ := (max (round x) 0).toNat

/-- The Bézier corner expansion of pass 1 of `smooth_path`: nine curve
samples, each kept if in bounds and not on Ocean/DeepOcean/Lake. -/
noncomputable def bezierCorner (terrain : List (List (TerrainPoint ℝ)))
    (prev curr next : ℕ × ℕ) : List (ℕ × ℕ) :=
  let v1x : ℝ := (curr.1 : ℝ) - (prev.1 : ℝ)
  let v1y : ℝ := (curr.2 : ℝ) - (prev.2 : ℝ)
  let v2x : ℝ := (next.1 : ℝ) - (curr.1 : ℝ)
  let v2y : ℝ := (next.2 : ℝ) - (curr.2 : ℝ)
  let dist1 := Real.sqrt (v1x * v1x + v1y * v1y)
  let dist2 := Real.sqrt (v2x * v2x + v2y * v2y)
  let curve_radius := min dist1 dist2 * 0.4
  let t1 := curve_radius / dist1
  let t2 := curve_radius / dist2
  let p1x := (curr.1 : ℝ) - v1x * t1
  let p1y := (curr.2 : ℝ) - v1y * t1
  let p2x := (curr.1 : ℝ) + v2x * t2
  let p2y := (curr.2 : ℝ) + v2y * t2
  (List.range 9).foldl
    (fun acc j =>
      let t : ℝ := (j : ℕ) / 8
      let tt2 := t * t
      let tt3 := tt2 * t
      let mt := 1 - t
      let mt2 := mt * mt
      let mt3 := mt2 * mt
      let px := mt3 * p1x + 3 * mt2 * t * (curr.1 : ℝ) + 3 * mt * tt2 * (curr.1 : ℝ) + tt3 * p2x
      let py := mt3 * p1y + 3 * mt2 * t * (curr.2 : ℝ) + 3 * mt * tt2 * (curr.2 : ℝ) + tt3 * p2y
      let curved_x := roundUsize px
      let curved_y := roundUsize py
      if curved_x < wOf terrain ∧ curved_y < hOf terrain then
        if smoothWaterBlocked (biomeAtD terrain curved_x curved_y) = false then
          acc ++ [(curved_x, curved_y)]
        else acc
      else acc)
    []

/-- Pass 1 of `smooth_path` over the interior points (the caller pushes the
first point and this function the rest, ending with the final point). -/
noncomputable def splineGo (terrain : List (List (TerrainPoint ℝ))) :
    (ℕ × ℕ) → List (ℕ × ℕ) → List (ℕ × ℕ)
  | _, [] => []
  | _, [last] => [last]
  | prev, curr :: next :: rest =>
    let v1x : ℝ := (curr.1 : ℝ) - (prev.1 : ℝ)
    let v1y : ℝ := (curr.2 : ℝ) - (prev.2 : ℝ)
    let v2x : ℝ := (next.1 : ℝ) - (curr.1 : ℝ)
    let v2y : ℝ := (next.2 : ℝ) - (curr.2 : ℝ)
    let dot_product := v1x * v2x + v1y * v2y
    let v1_len := Real.sqrt (v1x * v1x + v1y * v1y)
    let v2_len := Real.sqrt (v2x * v2x + v2y * v2y)
    let cos_angle := if v1_len > 0 ∧ v2_len > 0 then dot_product / (v1_len * v2_len) else 1
    let is_right_angle := |cos_angle| < 0.1
    let is_sharp_turn := cos_angle < 0.5
    if is_right_angle ∨ is_sharp_turn ∨ dot_product ≤ 0.5 then
      bezierCorner terrain prev curr next ++ splineGo terrain curr (next :: rest)
    else
      curr :: splineGo terrain curr (next :: rest)

/-- One wiggle segment of pass 2: for a segment longer than 1.5 cells,
deterministic per-segment phase/frequency/amplitude draws produce lateral
sinusoidal offsets; each sample is kept when off water, else the straight
base point is used; out-of-bounds samples are dropped. -/
noncomputable def wiggleSegment (terrain : List (List (TerrainPoint ℝ)))
    (cur next : ℕ × ℕ) (r : Rng) : List (ℕ × ℕ) × Rng :=
  let dx : ℝ := (next.1 : ℝ) - (cur.1 : ℝ)
  let dy : ℝ := (next.2 : ℝ) - (cur.2 : ℝ)
  let distance := Real.sqrt (dx * dx + dy * dy)
  if distance > 1.5 then
    let num_points := natTrunc (distance * 0.8)
    let (phase, r1) := genRangeF 0 (2 * Real.pi) r
    let (frequency, r2) := genRangeF (0.3 : ℝ) 0.7 r1
    let (amplitude, r3) := genRangeF (0.5 : ℝ) 1.2 r2
    (List.range num_points).foldl
      (fun (acc : List (ℕ × ℕ) × Rng) j0 =>
        let j := j0 + 1
        let t : ℝ := (j : ℕ) / ((num_points + 1 : ℕ) : ℝ)
        let base_x := (cur.1 : ℝ) + dx * t
        let base_y := (cur.2 : ℝ) + dy * t
        let perp_x := -dy / distance
        let perp_y := dx / distance
        let wiggle1 := Real.sin (t * Real.pi * frequency + phase) * amplitude
        let wiggle2 := Real.sin (t * Real.pi * frequency * 2.3 + phase * 0.7) * amplitude * 0.3
        let total_wiggle := wiggle1 + wiggle2
        let wiggle_x := base_x + perp_x * total_wiggle
        let wiggle_y := base_y + perp_y * total_wiggle
        let (j1, rr1) := genRangeF (-(0.1) : ℝ) 0.1 acc.2
        let (j2, rr2) := genRangeF (-(0.1) : ℝ) 0.1 rr1
        let final_x := (round (wiggle_x + j1)).toNat
        let final_y := (round (wiggle_y + j2)).toNat
        if final_x < wOf terrain ∧ final_y < hOf terrain then
          if smoothWaterBlocked (biomeAtD terrain final_x final_y) = false then
            (acc.1 ++ [(final_x, final_y)], rr2)
          else
            (acc.1 ++ [((round base_x).toNat, (round base_y).toNat)], rr2)
        else (acc.1, rr2))
      ([], r3)
  else ([], r)

/-- Pass 2 of `smooth_path` over consecutive segment pairs. -/
noncomputable def wiggleGo (terrain : List (List (TerrainPoint ℝ))) :
    List (ℕ × ℕ) → Rng → List (ℕ × ℕ) × Rng
  | [], r => ([], r)
  | [_], r => ([], r)
  | cur :: next :: rest, r =>
    let ir := wiggleSegment terrain cur next r
    let tr := wiggleGo terrain (next :: rest) ir.2
    (ir.1 ++ next :: tr.1, tr.2)

/-- Consecutive-duplicate removal (final pass of `smooth_path`). -/
def dedupConsec : Option (ℕ × ℕ) → List (ℕ × ℕ) → List (ℕ × ℕ)
  | _, [] => []
  | last, x :: xs =>
    if some x = last then dedupConsec last xs else x :: dedupConsec (some x) xs

/-- `TerrainGenerator::smooth_path`: Bézier corner smoothing, then wiggle
insertion, then duplicate collapse; paths of fewer than 3 points are
returned unchanged. -/
noncomputable def smooth_path (terrain : List (List (TerrainPoint ℝ)))
    (path : List (ℕ × ℕ)) (r : Rng) : List (ℕ × ℕ) × Rng :=
  if path.length < 3 then (path, r)
  else
    let splined :=
      match path with
      | [] => []
      | p0 :: rest => p0 :: splineGo terrain p0 rest
    let sm := wiggleGo terrain splined r
    match splined with
    | [] => (dedupConsec none sm.1, sm.2)
    | s0 :: _ => (dedupConsec none (s0 :: sm.1), sm.2)

/-- `usize::MAX` (the `unwrap_or` default of the dist-map lookups). -/
def USIZEMAX : ℕ := 2 ^ 64 - 1

/-- Heap pop modelling `BinaryHeap::pop` with the reversed ordering: the
minimum-cost entry is removed (earliest among ties; the tie order of the
Rust heap is unspecified and no verified property depends on it). -/
def popMin : List (ℕ × (ℕ × ℕ)) → Option ((ℕ × (ℕ × ℕ)) × List (ℕ × (ℕ × ℕ)))
  | [] => none
  | e :: rest =>
    match popMin rest with
    | none => some (e, [])
    | some (m, r) => if e.1 ≤ m.1 then some (e, rest) else some (m, e :: r)

/-- The consecutive-straight-move counter of the A* cost function (walks
the `came_from` chain with fuel; the chain is finite in every reachable
state). -/
def straightCount (cf : List ((ℕ × ℕ) × (ℕ × ℕ))) (dx dy : ℤ) :
    ℕ → ℕ × ℕ → ℕ
  | 0, _ => 0
  | fuel + 1, pos =>
    match List.lookup pos cf with
    | none => 0
    | some prev =>
      let cdx : ℤ := (pos.1 : ℤ) - (prev.1 : ℤ)
      let cdy : ℤ := (pos.2 : ℤ) - (prev.2 : ℤ)
      if cdx = dx ∧ cdy = dy then 1 + straightCount cf dx dy fuel prev else 0

/-- The A* move-cost computation of `find_path` for a step from `(x, y)`
by offset `d` to `(nx, ny)` (in source order: base cost, elevation
penalty, biome multiplier, random jitter, direction/turn penalties,
contour discount). -/
noncomputable def astarMoveCost (terrain : List (List (TerrainPoint ℝ)))
    (cf : List ((ℕ × ℕ) × (ℕ × ℕ))) (x y : ℕ) (d : ℤ × ℤ) (nx ny : ℕ)
    (r : Rng) : ℕ × Rng :=
  let is_diagonal := d.1.natAbs + d.2.natAbs = 2
  let mc0 : ℕ := if d.1.natAbs + d.2.natAbs = 2 then 14 else 10
  let current_elevation := elevAt terrain x y
  let next_elevation := elevAt terrain nx ny
  let elevation_change := |next_elevation - current_elevation|
  let mc1 := mc0 + natTrunc (elevation_change * 100)
  let nb := biomeAtD terrain nx ny
  let mc2 :=
    if nb = Biome.River then mc1 * 5
    else if nb = Biome.Mountains then mc1 * 8
    else if nb = Biome.SnowPeaks then mc1 * 10
    else if nb = Biome.Hills then mc1 * 2
    else if nb = Biome.Swamp then mc1 * 3
    else if nb = Biome.Forest then natTrunc ((mc1 : ℝ) * 1.5)
    else mc1
  let (jit, r1) := genRangeNat 5 35 r
  let mc3 := mc2 + jit
  let (mc4, r2) :=
    if ¬ is_diagonal then
      match List.lookup (x, y) cf with
      | some prev_pos =>
        let prev_dx : ℤ := (x : ℤ) - (prev_pos.1 : ℤ)
        let prev_dy : ℤ := (y : ℤ) - (prev_pos.2 : ℤ)
        let is_right_angle :=
          ((prev_dx ≠ 0 ∧ prev_dy ≠ 0) ∧ (d.1 = 0 ∨ d.2 = 0)) ∨
          (prev_dx ≠ 0 ∧ prev_dy = 0 ∧ d.1 = 0 ∧ d.2 ≠ 0) ∨
          (prev_dx = 0 ∧ prev_dy ≠ 0 ∧ d.1 ≠ 0 ∧ d.2 = 0)
        if is_right_angle then (mc3 + 1000, r1)
        else
          let sc := straightCount cf d.1 d.2 (cf.length + 1) (x, y)
          let mcA := if sc > 0 then mc3 + sc * sc * 50 else mc3
          if d.1 = 0 ∨ d.2 = 0 then
            let (j2, rr) := genRangeNat 50 100 r1
            let mcB := mcA + 200 + j2
            let mcC := if (d.1 = 0 ∧ prev_dx = 0) ∨ (d.2 = 0 ∧ prev_dy = 0) then mcB + 300 else mcB
            (mcC, rr)
          else (mcA, r1)
      | none =>
        if d.1 = 0 ∨ d.2 = 0 then (mc3 + 150, r1) else (mc3, r1)
    else
      let mcA := natTrunc ((mc3 : ℝ) * 0.3)
      match List.lookup (x, y) cf with
      | some prev_pos =>
        let prev_dx : ℤ := (x : ℤ) - (prev_pos.1 : ℤ)
        let prev_dy : ℤ := (y : ℤ) - (prev_pos.2 : ℤ)
        if prev_dx ≠ 0 ∧ prev_dy ≠ 0 then
          let angle_change := (d.1 - prev_dx).natAbs + (d.2 - prev_dy).natAbs
          if angle_change ≤ 1 then (natTrunc ((mcA : ℝ) * 0.5), r1) else (mcA, r1)
        else (mcA, r1)
      | none => (mcA, r1)
  if elevation_change < 0.05 then (natTrunc ((mc4 : ℝ) * 0.85), r2) else (mc4, r2)

/-- The mutable search state of the A* loops. -/
structure AState where
  heap : List (ℕ × (ℕ × ℕ))
  dist : List ((ℕ × ℕ) × ℕ)
  cameFrom : List ((ℕ × ℕ) × (ℕ × ℕ))
  rng : Rng

/-- Neighbour expansion of one popped `find_path` node: water biomes are
skipped, improved costs are pushed and recorded. -/
noncomputable def astarExpand (terrain : List (List (TerrainPoint ℝ)))
    (goal : ℕ × ℕ) (pos : ℕ × ℕ) (cost : ℕ) (st : AState) : AState :=
  offsets8.foldl
    (fun s d =>
      let nxz : ℤ := (pos.1 : ℤ) + d.1
      let nyz : ℤ := (pos.2 : ℤ) + d.2
      -- `(x as i32 + dx) as usize` wraps negatives past the length guard
      if 0 ≤ nxz ∧ nxz < (wOf terrain : ℤ) ∧ 0 ≤ nyz ∧ nyz < (hOf terrain : ℤ) then
        let nx := nxz.toNat
        let ny := nyz.toNat
        if roadWaterBlocked (biomeAtD terrain nx ny) then s
        else
          let mcr := astarMoveCost terrain s.cameFrom pos.1 pos.2 d nx ny s.rng
          let dx_goal : ℝ := (nx : ℝ) - (goal.1 : ℝ)
          let dy_goal : ℝ := (ny : ℝ) - (goal.2 : ℝ)
          let heuristic := natTrunc (Real.sqrt (dx_goal * dx_goal + dy_goal * dy_goal) * 12)
          let nextCost := cost + mcr.1 + heuristic / 4
          if nextCost < (List.lookup (nx, ny) s.dist).getD USIZEMAX then
            ⟨(nextCost, (nx, ny)) :: s.heap, ((nx, ny), nextCost) :: s.dist,
             ((nx, ny), pos) :: s.cameFrom, mcr.2⟩
          else { s with rng := mcr.2 }
      else s)
    st

/-- Path reconstruction along the `came_from` chain (fuel-bounded; in
every reachable state the chain is acyclic and shorter than the map). -/
def reconstructPath (cf : List ((ℕ × ℕ) × (ℕ × ℕ))) :
    ℕ → ℕ × ℕ → List (ℕ × ℕ)
  | 0, cur => [cur]
  | fuel + 1, cur =>
    cur :: (match List.lookup cur cf with
            | none => []
            | some prev => reconstructPath cf fuel prev)

/-- The main pop loop of `find_path` (fuel-bounded; the source loop
terminates because per-node recorded costs strictly decrease). -/
noncomputable def astarLoop (terrain : List (List (TerrainPoint ℝ)))
    (goal : ℕ × ℕ) : ℕ → AState → List (ℕ × ℕ) × Rng
  | 0, st => ([], st.rng)
  | fuel + 1, st =>
    match popMin st.heap with
    | none => ([], st.rng)
    | some ((cost, pos), heap') =>
      if pos = goal then
        ((reconstructPath st.cameFrom (st.cameFrom.length + 1) goal).reverse, st.rng)
      else if cost > (List.lookup pos st.dist).getD USIZEMAX then
        astarLoop terrain goal fuel { st with heap := heap' }
      else
        astarLoop terrain goal fuel
          (astarExpand terrain goal pos cost { st with heap := heap' })

/-- `TerrainGenerator::find_path`: A* from `(x1, y1)` to `(x2, y2)`,
followed by path smoothing; failure yields an empty path. -/
noncomputable def find_path (terrain : List (List (TerrainPoint ℝ)))
    (x1 y1 x2 y2 : ℕ) (fuel : ℕ) (r : Rng) : List (ℕ × ℕ) × Rng :=
  let st0 : AState := ⟨[(0, (x1, y1))], [((x1, y1), 0)], [], r⟩
  let raw := astarLoop terrain (x2, y2) fuel st0
  smooth_path terrain raw.1 raw.2

/-- The early-stop biomes of `find_partial_path`. -/
def partialStopBiome : Biome → Bool
  | Biome.Mountains => true
  | Biome.SnowPeaks => true
  | Biome.Ocean => true
  | Biome.DeepOcean => true
  | _ => false

/-- Neighbour expansion of `find_partial_path` (simpler costs, no rng). -/
noncomputable def partialExpand (terrain : List (List (TerrainPoint ℝ)))
    (pos : ℕ × ℕ) (cost : ℕ)
    (heap : List (ℕ × (ℕ × ℕ))) (dist : List ((ℕ × ℕ) × ℕ))
    (cf : List ((ℕ × ℕ) × (ℕ × ℕ))) :
    List (ℕ × (ℕ × ℕ)) × List ((ℕ × ℕ) × ℕ) × List ((ℕ × ℕ) × (ℕ × ℕ)) :=
  offsets8.foldl
    (fun acc d =>
      let (h, dl, c) := acc
      let nxz : ℤ := (pos.1 : ℤ) + d.1
      let nyz : ℤ := (pos.2 : ℤ) + d.2
      if 0 ≤ nxz ∧ nxz < (wOf terrain : ℤ) ∧ 0 ≤ nyz ∧ nyz < (hOf terrain : ℤ) then
        let nx := nxz.toNat
        let ny := nyz.toNat
        if roadWaterBlocked (biomeAtD terrain nx ny) then acc
        else
          let mc0 : ℕ := if d.1.natAbs + d.2.natAbs = 2 then 14 else 10
          let elevation_change := |elevAt terrain nx ny - elevAt terrain pos.1 pos.2|
          let mc := mc0 + natTrunc (elevation_change * 50)
          let nextCost := cost + mc
          if nextCost < (List.lookup (nx, ny) dl).getD USIZEMAX then
            ((nextCost, (nx, ny)) :: h, ((nx, ny), nextCost) :: dl, ((nx, ny), pos) :: c)
          else acc
      else acc)
    (heap, dist, cf)

/-- The pop loop of `find_partial_path`: stops after 50 pops or on
difficult terrain, returning the partial reconstruction. -/
noncomputable def partialLoop (terrain : List (List (TerrainPoint ℝ)))
    (goal : ℕ × ℕ) :
    ℕ → ℕ → List (ℕ × (ℕ × ℕ)) → List ((ℕ × ℕ) × ℕ) →
    List ((ℕ × ℕ) × (ℕ × ℕ)) → List (ℕ × ℕ)
  | 0, _, _, _, _ => []
  | fuel + 1, steps, heap, dist, cf =>
    match popMin heap with
    | none => []
    | some ((cost, pos), heap') =>
      let steps' := steps + 1
      if 50 < steps' ∨ partialStopBiome (biomeAtD terrain pos.1 pos.2) then
        (reconstructPath cf (cf.length + 1) pos).reverse
      else if pos = goal then
        (reconstructPath cf (cf.length + 1) goal).reverse
      else if cost > (List.lookup pos dist).getD USIZEMAX then
        partialLoop terrain goal fuel steps' heap' dist cf
      else
        let ex := partialExpand terrain pos cost heap' dist cf
        partialLoop terrain goal fuel steps' ex.1 ex.2.1 ex.2.2

/-- `TerrainGenerator::find_partial_path`, followed by smoothing. -/
noncomputable def findPartialPath (terrain : List (List (TerrainPoint ℝ)))
    (x1 y1 x2 y2 : ℕ) (fuel : ℕ) (r : Rng) : List (ℕ × ℕ) × Rng :=
  let raw := partialLoop terrain (x2, y2) fuel 0 [(0, (x1, y1))] [((x1, y1), 0)] []
  smooth_path terrain raw r

/-- `TerrainGenerator::generate_road_name` (apostrophes written `\x27`). -/
def genRoadName (index : ℕ) (r : Rng) : String × Rng :=
  let descriptors := ["King\x27s", "Queen\x27s", "Merchant\x27s", "Old", "Ancient", "Royal",
                      "Imperial", "Trade", "Coastal", "Mountain", "Forest", "Valley",
                      "Pioneer", "Settler\x27s", "Hunter\x27s", "Pilgrim\x27s"]
  let (d, r1) := genRangeNat 0 4 r
  (descriptors.getD ((index * 3 + d) % descriptors.length) "", r1)

/-- `TerrainGenerator::generate_bridge_name`. -/
def genBridgeName (index : ℕ) (r : Rng) : String × Rng :=
  let prefs := ["Old", "New", "Great", "High", "Stone", "Iron", "Wooden", "Ancient"]
  let middles := ["River", "Creek", "Valley", "Canyon", "Gorge", "Falls", "Rapids", "Mill"]
  let (d1, r1) := genRangeNat 0 3 r
  let (d2, r2) := genRangeNat 0 2 r1
  (prefs.getD ((index * 5 + d1) % prefs.length) "" ++ " " ++
   middles.getD ((index * 3 + d2) % middles.length) "" ++ " Bridge", r2)

/-- Stable insertion into a sorted list (used to model Rust's stable
`sort_by`; for the total comparators in use the stable-sorted result is
unique, so the algorithms agree). -/
def insertSortedBy {β : Type} (lt : β → β → Bool) (x : β) : List β → List β
  | [] => [x]
  | y :: ys => if lt y x then y :: insertSortedBy lt x ys else x :: y :: ys

/-- Stable insertion sort. -/
def insertionSortBy {β : Type} (lt : β → β → Bool) : List β → List β
  | [] => []
  | x :: xs => insertSortedBy lt x (insertionSortBy lt xs)

/-- The union-find root chase of the Kruskal step (`while uf[x] != x`). -/
def ufFind (uf : List ℕ) : ℕ → ℕ → ℕ
  | 0, x => x
  | fuel + 1, x =>
    let p := uf.getD x x
    if p = x then x else ufFind uf fuel p

/-- The default value used for (provably in-range) city list indexing. -/
def dummyCity : City := ⟨0, 0, "", 0⟩

/-- Squared straight-line distance between two cities. -/
noncomputable def cityDist2 (a b : City) : ℝ :=
  ((a.x : ℝ) - (b.x : ℝ)) ^ 2 + ((a.y : ℝ) - (b.y : ℝ)) ^ 2

/-- `f64::MAX` as used for the running-minimum initialisers (all compared
quantities are far below it). -/
noncomputable def FMAX : ℝ := 2 ^ 1024

/-- Step 1 edge selection of `generate_roads`: all pairs among the first
`min(len, 8)` cities, sorted by distance, Kruskal with an 80-cell cutoff
(distances squared, cutoff 6400). -/
noncomputable def mstEdgesOf (cities : List City) (major_count : ℕ) : List (ℕ × ℕ) :=
  let edges := (List.range major_count).foldl
    (fun (acc : List (ℝ × ℕ × ℕ)) i =>
      (List.range' (i + 1) (major_count - (i + 1))).foldl
        (fun acc2 j =>
          acc2 ++ [(cityDist2 (cities.getD i dummyCity) (cities.getD j dummyCity), i, j)])
        acc)
    []
  let sorted := insertionSortBy (fun a b => decide (a.1 < b.1)) edges
  ((sorted.takeWhile fun e => decide (e.1 ≤ 6400)).foldl
    (fun (acc : List (ℕ × ℕ) × List ℕ) e =>
      let root_i := ufFind acc.2 major_count e.2.1
      let root_j := ufFind acc.2 major_count e.2.2
      if root_i ≠ root_j then
        (acc.1 ++ [(e.2.1, e.2.2)], listModify (fun _ => root_j) root_i acc.2)
      else acc)
    ([], List.range major_count)).1

/-- Bridge detection along a road path: a river-point or River-biome cell
yields a bridge (name index continues the global bridge count). -/
noncomputable def detectBridges (terrain : List (List (TerrainPoint ℝ)))
    (riverPts : List (ℕ × ℕ)) (path : List (ℕ × ℕ)) (baseCount : ℕ)
    (r : Rng) : List Bridge × Rng :=
  path.foldl
    (fun (acc : List Bridge × Rng) c =>
      if riverPts.contains c ∨
         (biomeAtD terrain c.1 c.2 = Biome.River ∧
          ¬(biomeAtD terrain c.1 c.2 = Biome.Ocean ∨
            biomeAtD terrain c.1 c.2 = Biome.DeepOcean ∨
            biomeAtD terrain c.1 c.2 = Biome.Lake)) then
        let (nm, r') := genBridgeName (baseCount + acc.1.length) acc.2
        (acc.1 ++ [⟨c.1, c.2, nm⟩], r')
      else acc)
    ([], r)

/-- The mutable state threaded through the road-building phases.  The
`network` field collects the `road_network` keys in insertion order; the
Rust `HashMap` iterates them in an instance-seeded (not fixed) order. -/
structure RoadState where
  roads : List Road
  allBridges : List Bridge
  connected : List Bool
  network : List (ℕ × ℕ)
  rng : Rng

/-- Insert a path's cells as network keys (`entry().or_insert().push()`;
only the key set is ever read back). -/
def addNetworkKeys (net : List (ℕ × ℕ)) (path : List (ℕ × ℕ)) : List (ℕ × ℕ) :=
  path.foldl (fun n p => if n.contains p then n else n ++ [p]) net

/-- Step 2 of `generate_roads`: one pathfound highway per MST edge. -/
noncomputable def roadsPhase1 (terrain : List (List (TerrainPoint ℝ)))
    (cities : List City) (riverPts : List (ℕ × ℕ)) (fuel : ℕ)
    (mst : List (ℕ × ℕ)) (st : RoadState) : RoadState :=
  mst.foldl
    (fun s e =>
      let ci := cities.getD e.1 dummyCity
      let cj := cities.getD e.2 dummyCity
      let pr := find_path terrain ci.x ci.y cj.x cj.y fuel s.rng
      if pr.1 = [] then { s with rng := pr.2 }
      else
        let connected' := listModify (fun _ => true) e.2 (listModify (fun _ => true) e.1 s.connected)
        let network' := addNetworkKeys s.network pr.1
        let br := detectBridges terrain riverPts pr.1 s.allBridges.length pr.2
        let nr := genRoadName s.roads.length br.2
        { roads := s.roads ++ [⟨pr.1, nr.1 ++ " Highway", "highway", br.1⟩],
          allBridges := s.allBridges ++ br.1,
          connected := connected',
          network := network',
          rng := nr.2 })
    st

/-- The nearest-road-point scan of step 3 (`for (&(rx, ry), _) in
road_network.iter()`), extracted: the fold runs in the order the Rust
`HashMap` happens to iterate, which is an instance-seeded order the seed
does not determine.  Distances squared (cutoff 30 ⇒ 900). -/
noncomputable def bestRoadConnection (network : List (ℕ × ℕ)) (cx cy : ℕ) :
    Option ((ℕ × ℕ) × Bool) × ℝ :=
  network.foldl
    (fun (acc : Option ((ℕ × ℕ) × Bool) × ℝ) p =>
      let dx : ℝ := (cx : ℝ) - (p.1 : ℝ)
      let dy : ℝ := (cy : ℝ) - (p.2 : ℝ)
      let d2 := dx * dx + dy * dy
      if d2 < 900 ∧ d2 < acc.2 then (some (p, true), d2) else acc)
    (none, FMAX)

/-- The nearest-connected-city scan of step 3 (runs only when the road
scan found nothing, continuing with its running minimum). -/
noncomputable def bestCityConnection (cities : List City) (connected : List Bool)
    (i : ℕ) (minc : ℝ) : Option ((ℕ × ℕ) × Bool) × ℝ :=
  (List.range cities.length).foldl
    (fun (acc : Option ((ℕ × ℕ) × Bool) × ℝ) j =>
      if i ≠ j ∧ connected.getD j false = true then
        let cj := cities.getD j dummyCity
        let d2 := cityDist2 (cities.getD i dummyCity) cj
        if d2 < acc.2 then (some ((cj.x, cj.y), false), d2) else acc
      else acc)
    (none, minc)

/-- The forced fallback of step 3: the globally nearest other city (index
0 when the city is alone, as in the source). -/
noncomputable def forcedNearest (cities : List City) (i : ℕ) : ℕ :=
  ((List.range cities.length).foldl
    (fun (acc : ℕ × ℝ) j =>
      if i ≠ j then
        let d2 := cityDist2 (cities.getD i dummyCity) (cities.getD j dummyCity)
        if d2 < acc.2 then (j, d2) else acc
      else acc)
    (0, FMAX)).1

/-- Step 3 of `generate_roads`: connect each still-unconnected settlement
to the nearest road point within range, else the nearest connected city,
else the globally nearest city. -/
noncomputable def roadsPhase2 (terrain : List (List (TerrainPoint ℝ)))
    (cities : List City) (riverPts : List (ℕ × ℕ)) (fuel : ℕ)
    (st : RoadState) : RoadState :=
  (List.range cities.length).foldl
    (fun s i =>
      if s.connected.getD i false = true then s
      else
        let ci := cities.getD i dummyCity
        let first := bestRoadConnection s.network ci.x ci.y
        let second := if first.1 = none then bestCityConnection cities s.connected i first.2 else first
        let target :=
          match second.1 with
          | some b => b
          | none =>
            let n := forcedNearest cities i
            (((cities.getD n dummyCity).x, (cities.getD n dummyCity).y), false)
        let pr := find_path terrain ci.x ci.y target.1.1 target.1.2 fuel s.rng
        if pr.1 = [] then { s with rng := pr.2 }
        else
          let connected' := listModify (fun _ => true) i s.connected
          let network' := addNetworkKeys s.network pr.1
          let br := detectBridges terrain riverPts pr.1 s.allBridges.length pr.2
          let road_type := if ci.population > 100000 then "road" else "trail"
          let nr := genRoadName s.roads.length br.2
          let nm := if target.2 then nr.1 ++ " Branch"
                    else nr.1 ++ " " ++ (if road_type = "trail" then "Trail" else "Road")
          { roads := s.roads ++ [⟨pr.1, nm, road_type, br.1⟩],
            allBridges := s.allBridges ++ br.1,
            connected := connected',
            network := network',
            rng := nr.2 })
    st

/-- Step 4 of `generate_roads`: each settlement spawns an exploratory
trail with probability 0.3. -/
noncomputable def roadsPhase3 (terrain : List (List (TerrainPoint ℝ)))
    (cities : List City) (riverPts : List (ℕ × ℕ)) (fuel : ℕ)
    (st : RoadState) : RoadState :=
  cities.foldl
    (fun s c =>
      let b := genBool (3/10 : ℝ) s.rng
      if b.1 then
        let ar := genRangeF 0 (2 * Real.pi) b.2
        let dr := genRangeF (15 : ℝ) 30 ar.2
        let tx := natTrunc ((c.x : ℝ) + Real.cos ar.1 * dr.1)
        let ty := natTrunc ((c.y : ℝ) + Real.sin ar.1 * dr.1)
        if tx < wOf terrain ∧ ty < hOf terrain then
          let pr := findPartialPath terrain c.x c.y tx ty fuel dr.2
          if 5 < pr.1.length then
            let br := detectBridges terrain riverPts pr.1 s.allBridges.length pr.2
            let nr := genRoadName s.roads.length br.2
            { s with
              roads := s.roads ++ [⟨pr.1, "Old " ++ nr.1 ++ " Trail", "trail", br.1⟩],
              allBridges := s.allBridges ++ br.1,
              rng := nr.2 }
          else { s with rng := pr.2 }
        else { s with rng := dr.2 }
      else { s with rng := b.2 })
    st

/-- `TerrainGenerator::generate_roads`. -/
noncomputable def genRoads (terrain : List (List (TerrainPoint ℝ)))
    (cities : List City) (rivers : List (List (ℕ × ℕ))) (r : Rng) :
    List Road × List Bridge × Rng :=
  if cities = [] then ([], [], r)
  else
    let riverPts := rivers.foldl (· ++ ·) []
    let major_count := min cities.length 8
    let mst := if 1 < major_count then mstEdgesOf cities major_count else []
    let fuel := (wOf terrain * hOf terrain + 2) ^ 3
    let st0 : RoadState := ⟨[], [], List.replicate cities.length false, [], r⟩
    let st1 := roadsPhase1 terrain cities riverPts fuel mst st0
    let st2 := roadsPhase2 terrain cities riverPts fuel st1
    let st3 := roadsPhase3 terrain cities riverPts fuel st2
    (st3.roads, st3.allBridges, st3.rng)

/-- The stack-based flood fill of `find_regions` (fuel-bounded; the fuel
passed by `findRegions` covers every reachable fill).  Returns the
discovered region (in pop order) and the updated visited set. -/
def floodFill (pred : Biome → Bool) {α : Type} (terrain : List (List (TerrainPoint α))) :
    ℕ → List (ℕ × ℕ) → List (ℕ × ℕ) → List (ℕ × ℕ) × List (ℕ × ℕ)
  | 0, _, visited => ([], visited)
  | _ + 1, [], visited => ([], visited)
  | fuel + 1, c :: stack', visited =>
    if visited.contains c then floodFill pred terrain fuel stack' visited
    else
      let visited' := c :: visited
      let stack'' := offsets8.foldl
        (fun st d =>
          let nxz : ℤ := (c.1 : ℤ) + d.1
          let nyz : ℤ := (c.2 : ℤ) + d.2
          if 0 ≤ nxz ∧ nxz < (wOf terrain : ℤ) ∧ 0 ≤ nyz ∧ nyz < (hOf terrain : ℤ) then
            if ¬ visited'.contains (nxz.toNat, nyz.toNat) ∧
                pred (biomeAtD terrain nxz.toNat nyz.toNat) then
              (nxz.toNat, nyz.toNat) :: st
            else st
          else st)
        stack'
      let rest := floodFill pred terrain fuel stack'' visited'
      (c :: rest.1, rest.2)

/-- `TerrainGenerator::find_regions`: scan all cells, flood-filling each
unvisited predicate-matching cell; regions of more than 10 cells kept. -/
def findRegions (pred : Biome → Bool) {α : Type}
    (terrain : List (List (TerrainPoint α))) : List (List (ℕ × ℕ)) :=
  ((List.range (hOf terrain)).foldl
    (fun (acc : List (List (ℕ × ℕ)) × List (ℕ × ℕ)) y =>
      (List.range (wOf terrain)).foldl
        (fun acc2 x =>
          if ¬ acc2.2.contains (x, y) ∧ pred (biomeAtD terrain x y) then
            let fill := floodFill pred terrain (9 * (wOf terrain * hOf terrain) + 9) [(x, y)] acc2.2
            if 10 < fill.1.length then (acc2.1 ++ [fill.1], fill.2) else (acc2.1, fill.2)
          else acc2)
        acc)
    ([], [])).1

/-- `Iterator::step_by`: every `k`-th element starting at index 0. -/
def stepBy {β : Type} (k : ℕ) (l : List β) : List β :=
  (l.enum.filter fun e => e.1 % k = 0).map (·.2)

/-- `TerrainGenerator::region_center`: sampled farthest-from-boundary cell,
falling back to the centroid. -/
def regionCenter (region : List (ℕ × ℕ)) : ℕ × ℕ :=
  let sample_rate := max (region.length / 100) 1
  let sampled := stepBy (sample_rate * 5) region
  let res := region.enum.foldl
    (fun (acc : (ℕ × ℕ) × ℕ) e =>
      if e.1 % sample_rate ≠ 0 then acc
      else
        let x := e.2.1
        let y := e.2.2
        let min_dist := sampled.foldl
          (fun md o =>
            let dist := (if x > o.1 then x - o.1 else o.1 - x) +
                        (if y > o.2 then y - o.2 else o.2 - y)
            let is_edge := ¬ region.contains (o.1 + 1, o.2) ∨
                           ¬ region.contains (o.1, o.2 + 1) ∨
                           (o.1 > 0 ∧ ¬ region.contains (o.1 - 1, o.2)) ∨
                           (o.2 > 0 ∧ ¬ region.contains (o.1, o.2 - 1))
            if is_edge ∧ dist < md then dist else md)
          USIZEMAX
        if min_dist > acc.2 then ((x, y), min_dist) else acc)
    ((0, 0), 0)
  if res.2 = 0 then
    ((region.map (·.1)).sum / region.length, (region.map (·.2)).sum / region.length)
  else res.1

/-- `TerrainGenerator::generate_ocean_name`. -/
def genOceanName (_index : ℕ) (r : Rng) : String × Rng :=
  let prefs := ["Azure", "Cerulean", "Sapphire", "Mystic", "Crystal", "Eternal", "Whispering"]
  let sufs := ["Sea", "Ocean", "Deep", "Abyss", "Waters", "Expanse", "Bay"]
  let (d1, r1) := genRangeNat 0 prefs.length r
  let (d2, r2) := genRangeNat 0 sufs.length r1
  (prefs.getD d1 "" ++ " " ++ sufs.getD d2 "", r2)

/-- `TerrainGenerator::generate_mountain_name`. -/
def genMountainName (index : ℕ) (r : Rng) : String × Rng :=
  let prefs := ["Mount", "Mt.", "Peak"]
  let firstParts := ["Storm", "Iron", "Snow", "Thunder", "Eagle", "Wolf", "Dragon", "Crystal",
                     "Shadow", "Silver", "Golden", "Frost", "Wind", "Cloud", "Stone", "Red"]
  let secondParts := ["horn", "crest", "spire", "ridge", "tooth", "peak", "crown", "fang",
                      "head", "point", "top", "summit", "needle", "wall"]
  let sufs := ["Mountains", "Range", "Peaks", "Heights", "Alps", "Highlands"]
  let (d1, r1) := genRangeNat 0 3 r
  let prefix_idx := (index + d1) % prefs.length
  let (d2, r2) := genRangeNat 0 4 r1
  let first_idx := (index * 7 + d2) % firstParts.length
  let (d3, r3) := genRangeNat 0 3 r2
  let second_idx := (index * 5 + d3) % secondParts.length
  let (b, r4) := genBool (2/5 : ℚ) r3
  if b then
    let (ds, r5) := genRangeNat 0 sufs.length r4
    ("The " ++ firstParts.getD first_idx "" ++ secondParts.getD second_idx "" ++ " " ++
     sufs.getD ds "", r5)
  else
    (prefs.getD prefix_idx "" ++ " " ++ firstParts.getD first_idx "" ++
     secondParts.getD second_idx "", r4)

/-- `TerrainGenerator::generate_forest_name`. -/
def genForestName (_index : ℕ) (r : Rng) : String × Rng :=
  let adjectives := ["Whispering", "Ancient", "Enchanted", "Dark", "Silver", "Golden", "Misty"]
  let nouns := ["Woods", "Forest", "Grove", "Thicket", "Woodland", "Glade", "Copse"]
  let (d1, r1) := genRangeNat 0 adjectives.length r
  let (d2, r2) := genRangeNat 0 nouns.length r1
  (adjectives.getD d1 "" ++ " " ++ nouns.getD d2 "", r2)

/-- `TerrainGenerator::generate_swamp_name`. -/
def genSwampName (_index : ℕ) (r : Rng) : String × Rng :=
  let adjectives := ["Murky", "Fetid", "Misty", "Black", "Forgotten", "Cursed", "Silent"]
  let nouns := ["Marsh", "Swamp", "Bog", "Fen", "Mire", "Wetlands", "Quagmire"]
  let (d1, r1) := genRangeNat 0 adjectives.length r
  let (d2, r2) := genRangeNat 0 nouns.length r1
  (adjectives.getD d1 "" ++ " " ++ nouns.getD d2 "", r2)

/-- `TerrainGenerator::generate_river_name`. -/
def genRiverName (_index : ℕ) (r : Rng) : String × Rng :=
  let prefs := ["River", "The"]
  let names := ["Silverflow", "Clearwater", "Rushing", "Serpent", "Crystal", "Moonwater", "Swift"]
  let (d1, r1) := genRangeNat 0 prefs.length r
  let (d2, r2) := genRangeNat 0 names.length r1
  let pfx := prefs.getD d1 ""
  let nm := names.getD d2 ""
  (if pfx = "The" then "The " ++ nm ++ " River" else nm ++ " " ++ pfx, r2)

/-- The label-overlap test (`is_too_close`), with the distance compared
squared. -/
noncomputable def isTooCloseLabel (mind : ℝ) (placed : List (ℝ × ℝ)) (x y : ℝ) : Bool :=
  placed.any fun p => decide ((x - p.1) ^ 2 + (y - p.2) ^ 2 < mind ^ 2)

/-- One labelled category block of `generate_labels`: regions sorted by
size descending, top `K` above the size floor `S` labelled when not
crowding an earlier label. -/
noncomputable def labelCategory (K S : ℕ) (ftype : String)
    (nameGen : ℕ → Rng → String × Rng) (mind : ℝ)
    (regions : List (List (ℕ × ℕ)))
    (st : List (PlaceLabel ℝ) × List (ℝ × ℝ) × Rng) :
    List (PlaceLabel ℝ) × List (ℝ × ℝ) × Rng :=
  let sorted := insertionSortBy
    (fun (a b : ℕ × List (ℕ × ℕ)) => decide (b.2.length < a.2.length)) regions.enum
  (sorted.take K).foldl
    (fun acc e =>
      if S < e.2.length then
        let pc := regionCenter e.2
        let fx : ℝ := (pc.1 : ℕ)
        let fy : ℝ := (pc.2 : ℕ)
        if isTooCloseLabel mind acc.2.1 fx fy = false then
          let (nm, r') := nameGen e.1 acc.2.2
          (acc.1 ++ [⟨fx, fy, nm, ftype⟩], acc.2.1 ++ [(fx, fy)], r')
        else acc
      else acc)
    st

/-- The label-position attempts for one river (first fitting of the three
candidate positions wins). -/
noncomputable def riverLabelTry (mind : ℝ) (river : List (ℕ × ℕ)) (i : ℕ)
    (placed : List (ℝ × ℝ)) (r : Rng) :
    List ℕ → Option (PlaceLabel ℝ × (ℝ × ℝ) × Rng)
  | [] => none
  | pos :: rest =>
    if pos < river.length then
      let cell := river.getD pos (0, 0)
      let fx : ℝ := (cell.1 : ℕ)
      let fy : ℝ := (cell.2 : ℕ)
      if isTooCloseLabel mind placed fx fy = false then
        let (nm, r') := genRiverName i r
        some (⟨fx, fy, nm, "river"⟩, (fx, fy), r')
      else riverLabelTry mind river i placed r rest
    else riverLabelTry mind river i placed r rest

/-- `TerrainGenerator::generate_labels`.  `none` models the `terrain[0]`
panic on an empty grid. -/
noncomputable def genLabels (terrain : List (List (TerrainPoint ℝ)))
    (rivers : List (List (ℕ × ℕ))) (r : Rng) :
    Option (List (PlaceLabel ℝ) × Rng) :=
  if terrain = [] then none
  else
    let map_scale := max ((wOf terrain : ℝ) / 160) ((hOf terrain : ℝ) / 120)
    let mind := 80 * map_scale
    let st0 : List (PlaceLabel ℝ) × List (ℝ × ℝ) × Rng := ([], [], r)
    let st1 := labelCategory 3 200 "ocean" genOceanName mind
      (findRegions (fun b => b = Biome.Ocean ∨ b = Biome.DeepOcean : Biome → Bool) terrain) st0
    let st2 := labelCategory 4 40 "mountains" genMountainName mind
      (findRegions (fun b => b = Biome.Mountains ∨ b = Biome.SnowPeaks : Biome → Bool) terrain) st1
    let st3 := labelCategory 3 100 "forest" genForestName mind
      (findRegions (fun b => b = Biome.Forest : Biome → Bool) terrain) st2
    let st4 := labelCategory 2 60 "swamp" genSwampName mind
      (findRegions (fun b => b = Biome.Swamp : Biome → Bool) terrain) st3
    let final := rivers.enum.foldl
      (fun (acc : (List (PlaceLabel ℝ) × List (ℝ × ℝ) × Rng) × ℕ) e =>
        let river := e.2
        if 30 < river.length ∧ acc.2 < 3 then
          let positions := [river.length / 3, river.length / 2, river.length * 2 / 3]
          match riverLabelTry mind river e.1 acc.1.2.1 acc.1.2.2 positions with
          | none => acc
          | some (lbl, pt, r') =>
            ((acc.1.1 ++ [lbl], acc.1.2.1 ++ [pt], r'), acc.2 + 1)
        else acc)
      (st4, 0)
    some (final.1.1, final.1.2.2)

/-- `TerrainGenerator::generate`: the full pipeline.  `none` models a
panic in a stage (degenerate grid sizes). -/
noncomputable def generate (nz : Noise) (s : GenSettings ℝ) (w h : ℕ)
    (r : Rng) : Option (TerrainMap ℝ) :=
  let terrain0 := buildTerrain nz s w h
  match genRivers terrain0 s r with
  | none => none
  | some (rivers, r1) =>
    let terrain1 := erode w h terrain0 rivers
    match genCities terrain1 s r1 with
    | none => none
    | some (cities, r2) =>
      let rb := genRoads terrain1 cities rivers r2
      match genLabels terrain1 rivers rb.2.2 with
      | none => none
      | some (labels, _) =>
        some ⟨w, h, terrain1, labels, rivers, cities, rb.1, rb.2.1⟩

/-- A fold whose seed is a fixed point stays there. -/
theorem foldl_fixed_point {β γ : Type} (f : γ → β → γ) (z : γ)
    (hz : ∀ b, f z b = z) : ∀ l : List β, l.foldl f z = z
  | [] => rfl
  | b :: l => by rw [List.foldl_cons, hz b]; exact foldl_fixed_point f z hz l

theorem listModify_nil {β : Type} (f : β → β) (n : ℕ) :
    listModify f n [] = [] := by cases n <;> rfl

theorem listModify_length {β : Type} (f : β → β) :
    ∀ (n : ℕ) (l : List β), (listModify f n l).length = l.length
  | n, [] => by rw [listModify_nil]
  | 0, _ :: _ => rfl
  | n + 1, _ :: l => by simp [listModify, listModify_length f n l]

theorem mem_listModify {β : Type} {f : β → β} :
    ∀ {n : ℕ} {l : List β} {x : β}, x ∈ listModify f n l →
      ∃ y ∈ l, x = y ∨ x = f y := by
  intro n l
  induction l generalizing n with
  | nil => intro x hx; rw [listModify_nil] at hx; simp at hx
  | cons a l ih =>
    intro x hx
    cases n with
    | zero =>
      simp only [listModify, List.mem_cons] at hx
      rcases hx with h | h
      · exact ⟨a, List.mem_cons_self a l, Or.inr h⟩
      · exact ⟨x, List.mem_cons_of_mem a h, Or.inl rfl⟩
    | succ n =>
      simp only [listModify, List.mem_cons] at hx
      rcases hx with h | h
      · exact ⟨a, List.mem_cons_self a l, Or.inl h⟩
      · obtain ⟨y, hy, hxy⟩ := ih h
        exact ⟨y, List.mem_cons_of_mem a hy, hxy⟩

/-- Grid rectangularity. -/
def Rect {β : Type} (w h : ℕ) (t : List (List β)) : Prop :=
  t.length = h ∧ ∀ row ∈ t, row.length = w

theorem rect_gridModify {β : Type} {w h : ℕ} {t : List (List β)} (f : β → β)
    (x y : ℕ) (ht : Rect w h t) : Rect w h (gridModify f x y t) := by
  obtain ⟨hlen, hrow⟩ := ht
  refine ⟨by rw [gridModify, listModify_length]; exact hlen, ?_⟩
  intro row hr
  obtain ⟨row0, hrow0, hcase⟩ := mem_listModify hr
  rcases hcase with rfl | rfl
  · exact hrow _ hrow0
  · rw [listModify_length]; exact hrow _ hrow0

/-- A pointwise property of the grid. -/
def GridAll {β : Type} (P : β → Prop) (t : List (List β)) : Prop :=
  ∀ row ∈ t, ∀ p ∈ row, P p

theorem gridAll_gridModify {β : Type} {P : β → Prop} {t : List (List β)}
    (f : β → β) (x y : ℕ) (hf : ∀ p, P p → P (f p)) (ht : GridAll P t) :
    GridAll P (gridModify f x y t) := by
  intro row hr p hp
  obtain ⟨row0, hrow0, hcase⟩ := mem_listModify hr
  rcases hcase with rfl | rfl
  · exact ht _ hrow0 _ hp
  · obtain ⟨p0, hp0, hpc⟩ := mem_listModify hp
    rcases hpc with rfl | rfl
    · exact ht _ hrow0 _ hp0
    · exact hf _ (ht _ hrow0 _ hp0)

/-- The update preservation conditions erosion needs of a pointwise
property: closed under the 0.95-damping and the River/0.9 update. -/
def ErosionStable {α : Type} [LinearOrderedField α] (P : TerrainPoint α → Prop) : Prop :=
  (∀ p, P p → P { p with elevation := p.elevation * (19/20) }) ∧
  (∀ p, P p → P { p with biome := Biome.River, elevation := p.elevation * (9/10) })

theorem gridAll_erodeNeighbor {α : Type} [LinearOrderedField α]
    {P : TerrainPoint α → Prop} (hP : ErosionStable P) {w h x y : ℕ}
    {t : List (List (TerrainPoint α))} (d : ℤ × ℤ) (ht : GridAll P t) :
    GridAll P (erodeNeighbor w h t x y d) := by
  simp only [erodeNeighbor]
  split_ifs
  · exact gridAll_gridModify _ _ _ hP.1 ht
  · exact ht
  · exact ht

theorem gridAll_erodeCell {α : Type} [LinearOrderedField α]
    {P : TerrainPoint α → Prop} (hP : ErosionStable P) {w h : ℕ}
    {t : List (List (TerrainPoint α))} (c : ℕ × ℕ) (ht : GridAll P t) :
    GridAll P (erodeCell w h t c) := by
  unfold erodeCell
  split_ifs
  · have h1 : GridAll P (gridModify
        (fun p => { p with biome := Biome.River, elevation := p.elevation * (9/10) }) c.1 c.2 t) :=
      gridAll_gridModify _ _ _ hP.2 ht
    generalize hg : gridModify _ c.1 c.2 t = t1 at h1
    clear hg ht
    induction offsets9 generalizing t1 with
    | nil => exact h1
    | cons d ds ih => exact ih _ (gridAll_erodeNeighbor hP d h1)
  · exact ht

theorem gridAll_erode {α : Type} [LinearOrderedField α]
    {P : TerrainPoint α → Prop} (hP : ErosionStable P) {w h : ℕ}
    {t : List (List (TerrainPoint α))} (rivers : List (List (ℕ × ℕ)))
    (ht : GridAll P t) : GridAll P (erode w h t rivers) := by
  unfold erode
  induction rivers generalizing t with
  | nil => exact ht
  | cons riv rs ih =>
    rw [List.foldl_cons]
    refine ih ?_
    clear ih
    induction riv generalizing t with
    | nil => exact ht
    | cons c cs ihc =>
      rw [List.foldl_cons]
      exact ihc (gridAll_erodeCell hP c ht)

theorem rect_erodeNeighbor {α : Type} [LinearOrderedField α] {w h w' h' x y : ℕ}
    {t : List (List (TerrainPoint α))} (d : ℤ × ℤ) (ht : Rect w h t) :
    Rect w h (erodeNeighbor w' h' t x y d) := by
  simp only [erodeNeighbor]
  split_ifs
  · exact rect_gridModify _ _ _ ht
  · exact ht
  · exact ht

theorem rect_erodeCell {α : Type} [LinearOrderedField α] {w h w' h' : ℕ}
    {t : List (List (TerrainPoint α))} (c : ℕ × ℕ) (ht : Rect w h t) :
    Rect w h (erodeCell w' h' t c) := by
  unfold erodeCell
  split_ifs
  · have h1 : Rect w h (gridModify
        (fun p => { p with biome := Biome.River, elevation := p.elevation * (9/10) }) c.1 c.2 t) :=
      rect_gridModify _ _ _ ht
    generalize hg : gridModify _ c.1 c.2 t = t1 at h1
    clear hg ht
    induction offsets9 generalizing t1 with
    | nil => exact h1
    | cons d ds ih => exact ih _ (rect_erodeNeighbor d h1)
  · exact ht

theorem rect_erode {α : Type} [LinearOrderedField α] {w h w' h' : ℕ}
    {t : List (List (TerrainPoint α))} (rivers : List (List (ℕ × ℕ)))
    (ht : Rect w h t) : Rect w h (erode w' h' t rivers) := by
  unfold erode
  induction rivers generalizing t with
  | nil => exact ht
  | cons riv rs ih =>
    rw [List.foldl_cons]
    refine ih ?_
    clear ih
    induction riv generalizing t with
    | nil => exact ht
    | cons c cs ihc =>
      rw [List.foldl_cons]
      exact ihc (rect_erodeCell c ht)

theorem buildTerrain_rect (nz : Noise) (s : GenSettings ℝ) (w h : ℕ) :
    Rect w h (buildTerrain nz s w h) := by
  constructor
  · simp [buildTerrain]
  · intro row hr
    simp only [buildTerrain, List.mem_map] at hr
    obtain ⟨y, _, rfl⟩ := hr
    simp

theorem buildTerrain_gridAll (nz : Noise) (s : GenSettings ℝ) (w h : ℕ)
    {P : TerrainPoint ℝ → Prop} (hP : ∀ x y, x < w → y < h → P (buildPoint nz s x y w h)) :
    GridAll P (buildTerrain nz s w h) := by
  intro row hr p hp
  simp only [buildTerrain, List.mem_map] at hr
  obtain ⟨y, hy, rfl⟩ := hr
  simp only [List.mem_map] at hp
  obtain ⟨x, hx, rfl⟩ := hp
  exact hP x y (List.mem_range.mp hx) (List.mem_range.mp hy)

theorem hOf_buildTerrain (nz : Noise) (s : GenSettings ℝ) (w h : ℕ) :
    hOf (buildTerrain nz s w h) = h := by simp [hOf, buildTerrain]

theorem wOf_rect {β : Type} {w h : ℕ} {t : List (List β)} (ht : Rect w h t)
    (hh : h ≠ 0) : wOf t = w := by
  obtain ⟨hlen, hrow⟩ := ht
  cases t with
  | nil => exact absurd hlen.symm hh
  | cons row rest =>
    simp only [wOf, List.get?]
    exact hrow row (List.mem_cons_self _ _)

/-- With zero river density no rivers are attempted. -/
theorem genRivers_density_zero {α : Type} [LinearOrderedField α] [FloorRing α]
    (terrain : List (List (TerrainPoint α))) (s : GenSettings α) (r : Rng)
    (hs : s.river_density = 0) : genRivers terrain s r = some ([], r) := by
  unfold genRivers
  rw [if_pos]
  rw [hs]
  norm_num

/-- With zero city density no settlements are attempted. -/
theorem genCities_density_zero {α : Type} [LinearOrderedField α] [FloorRing α]
    (t : List (List (TerrainPoint α))) (s : GenSettings α) (r : Rng)
    (hs : s.city_density = 0) : genCities t s r = some ([], r) := by
  unfold genCities
  rw [if_pos]
  rw [hs]
  norm_num

/-- C6 (claim): `river_density = 0` forces an empty rivers collection and
`city_density = 0` an empty cities collection, on every returned map. -/
theorem c6_density_zero_empty (nz : Noise) (s : GenSettings ℝ) (w h : ℕ) (r : Rng) :
    (s.river_density = 0 →
      (generate nz s w h r).elim True fun m => m.rivers = []) ∧
    (s.city_density = 0 →
      (generate nz s w h r).elim True fun m => m.cities = []) := by
  constructor
  · intro hz
    have h1 := genRivers_density_zero (buildTerrain nz s w h) s r hz
    rcases hc : genCities (erode w h (buildTerrain nz s w h) []) s r with _ | ⟨cities, r2⟩
    · simp [generate, h1, hc]
    · rcases hl : genLabels (erode w h (buildTerrain nz s w h) [])
        [] (genRoads (erode w h (buildTerrain nz s w h) []) cities [] r2).2.2 with _ | ⟨labels, r4⟩
      · simp [generate, h1, hc, hl]
      · simp [generate, h1, hc, hl]
  · intro hz
    rcases hr : genRivers (buildTerrain nz s w h) s r with _ | ⟨rivers, r1⟩
    · simp [generate, hr]
    · have h2 := genCities_density_zero (erode w h (buildTerrain nz s w h) rivers) s r1 hz
      rcases hl : genLabels (erode w h (buildTerrain nz s w h) rivers)
        rivers (genRoads (erode w h (buildTerrain nz s w h) rivers) [] rivers r1).2.2 with _ | ⟨labels, r4⟩
      · simp [generate, hr, h2, hl]
      · simp [generate, hr, h2, hl]

/-- C6 witness. -/
theorem c6_density_zero_empty_witness :
    ((generate ⟨fun _ => 0, fun _ => 0, fun _ => 0, fun _ => 0, fun _ => 0⟩
        ⟨0, 0, 1/2⟩ 2 2 ⟨fun _ => 0, 0⟩).elim True fun m => m.rivers = []) ∧
    ((generate ⟨fun _ => 0, fun _ => 0, fun _ => 0, fun _ => 0, fun _ => 0⟩
        ⟨0, 0, 1/2⟩ 2 2 ⟨fun _ => 0, 0⟩).elim True fun m => m.cities = []) :=
  ⟨(c6_density_zero_empty _ _ 2 2 _).1 rfl,
   (c6_density_zero_empty _ _ 2 2 _).2 rfl⟩

/-- On a grid with no rows, `generate_rivers` either returns no rivers (no
candidate attempted) or panics in the start search. -/
theorem genRivers_h0 (s : GenSettings ℝ) (r : Rng) :
    genRivers ([] : List (List (TerrainPoint ℝ))) s r = none ∨
    ∃ r', genRivers ([] : List (List (TerrainPoint ℝ))) s r = some ([], r') := by
  unfold genRivers
  by_cases hrd : s.river_density < 1/100
  · rw [if_pos hrd]
    exact Or.inr ⟨r, rfl⟩
  · rw [if_neg hrd]
    dsimp only
    split_ifs
    all_goals first
      | exact Or.inr ⟨_, rfl⟩
      | exact Or.inl rfl
      | (rename_i hdims
         simp [hOf] at hdims)

/-- On a grid with no rows, `generate_cities` either returns no cities or
panics on the wrapped row range. -/
theorem genCities_h0 (s : GenSettings ℝ) (r : Rng) :
    genCities ([] : List (List (TerrainPoint ℝ))) s r = none ∨
    ∃ r', genCities ([] : List (List (TerrainPoint ℝ))) s r = some ([], r') := by
  unfold genCities
  dsimp only
  split_ifs with h1 h2 h3 h4
  · exact Or.inr ⟨r, rfl⟩
  · exact Or.inl rfl
  all_goals simp [hOf] at h2
theorem genLabels_nil (rivers : List (List (ℕ × ℕ))) (r : Rng) :
    genLabels [] rivers r = none := by simp [genLabels]

/-- C7 (code bug): with height 0 the pipeline panics for every seed and
settings (`terrain[0]` in `generate_rivers`/`generate_labels`, or the
wrapped `terrain.len()-2` range in `generate_cities`), modelled as `none`;
the spec requires a defined non-panicking result. -/
theorem c7_generate_height_zero_panics (nz : Noise) (s : GenSettings ℝ)
    (w : ℕ) (r : Rng) : generate nz s w 0 r = none := by
  have hbt : buildTerrain nz s w 0 = [] := by simp [buildTerrain]
  rcases genRivers_h0 s r with hr | ⟨r1, hr⟩
  · simp [generate, hbt, hr]
  · have her : erode w 0 ([] : List (List (TerrainPoint ℝ))) [] = [] := rfl
    rcases genCities_h0 s r1 with hc | ⟨r2, hc⟩
    · simp [generate, hbt, hr, her, hc]
    · simp [generate, hbt, hr, her, hc, genLabels_nil, genRoads]

/-- On a grid with at least one row and one column, `generate_rivers`
cannot panic. -/
theorem genRivers_isSome (t : List (List (TerrainPoint ℝ))) (s : GenSettings ℝ)
    (r : Rng) (hh : hOf t ≠ 0) (hw : wOf t ≠ 0) :
    ∃ out, genRivers t s r = some out := by
  unfold genRivers
  by_cases hrd : s.river_density < 1/100
  · rw [if_pos hrd]; exact ⟨_, rfl⟩
  · rw [if_neg hrd]
    dsimp only
    split_ifs
    all_goals first
      | exact ⟨_, rfl⟩
      | (rename_i hdims
         exact (hdims.elim hh hw).elim)

/-- On a grid with at least two rows and two columns, `generate_cities`
cannot panic. -/
theorem genCities_isSome (t : List (List (TerrainPoint ℝ))) (s : GenSettings ℝ)
    (r : Rng) (hh : 2 ≤ hOf t) (hw : 2 ≤ wOf t) :
    ∃ out, genCities t s r = some out := by
  unfold genCities
  dsimp only
  split_ifs with h1 h2 h3 h4
  · exact ⟨_, rfl⟩
  · exact absurd hh (by omega)
  · exact absurd h3.2 (by omega)
  · exact ⟨_, rfl⟩
  · exact ⟨_, rfl⟩

theorem genLabels_isSome (t : List (List (TerrainPoint ℝ)))
    (rivers : List (List (ℕ × ℕ))) (r : Rng) (ht : t ≠ []) :
    ∃ out, genLabels t rivers r = some out := by
  unfold genLabels
  rw [if_neg ht]
  exact ⟨_, rfl⟩

/-- C8 (claim): on a 2×2 grid, for every seed and settings, `generate`
returns (does not panic) a map whose stored dimensions are 2×2 and whose
grid is exactly 2 rows of 2 points. -/
theorem c8_two_by_two_shape (nz : Noise) (s : GenSettings ℝ) (r : Rng) :
    (generate nz s 2 2 r).elim False fun m =>
      m.width = 2 ∧ m.height = 2 ∧ m.terrain.length = 2 ∧
      ListAll (fun row => row.length = 2) m.terrain := by
  have hrect0 : Rect 2 2 (buildTerrain nz s 2 2) := buildTerrain_rect nz s 2 2
  have hh0 : hOf (buildTerrain nz s 2 2) = 2 := hOf_buildTerrain nz s 2 2
  have hw0 : wOf (buildTerrain nz s 2 2) = 2 := wOf_rect hrect0 (by norm_num)
  obtain ⟨⟨rivers, r1⟩, hr⟩ := genRivers_isSome (buildTerrain nz s 2 2) s r
    (by rw [hh0]; norm_num) (by rw [hw0]; norm_num)
  have hrect1 : Rect 2 2 (erode 2 2 (buildTerrain nz s 2 2) rivers) :=
    rect_erode rivers hrect0
  have hh1 : 2 ≤ hOf (erode 2 2 (buildTerrain nz s 2 2) rivers) := by
    rw [hOf, hrect1.1]
  have hw1 : 2 ≤ wOf (erode 2 2 (buildTerrain nz s 2 2) rivers) := by
    rw [wOf_rect hrect1 (by norm_num)]
  obtain ⟨⟨cities, r2⟩, hc⟩ :=
    genCities_isSome (erode 2 2 (buildTerrain nz s 2 2) rivers) s r1 hh1 hw1
  have hne : erode 2 2 (buildTerrain nz s 2 2) rivers ≠ [] := by
    intro hcon
    rw [hcon] at hrect1
    exact absurd hrect1.1 (by norm_num)
  obtain ⟨⟨labels, r4⟩, hl⟩ := genLabels_isSome (erode 2 2 (buildTerrain nz s 2 2) rivers)
    rivers (genRoads (erode 2 2 (buildTerrain nz s 2 2) rivers) cities rivers r2).2.2 hne
  simp only [generate, hr, hc, hl, Option.elim]
  refine ⟨by trivial, by trivial, hrect1.1, ?_⟩
  rw [listAll_iff_mem]
  exact hrect1.2

/-- Inversion of a successful `generate` run into its stage equations. -/
theorem generate_some_inv {nz : Noise} {s : GenSettings ℝ} {w h : ℕ} {r : Rng}
    {m : TerrainMap ℝ} (hm : generate nz s w h r = some m) :
    ∃ rivers r1 cities r2 labels r4,
      genRivers (buildTerrain nz s w h) s r = some (rivers, r1) ∧
      genCities (erode w h (buildTerrain nz s w h) rivers) s r1 = some (cities, r2) ∧
      genLabels (erode w h (buildTerrain nz s w h) rivers) rivers
        (genRoads (erode w h (buildTerrain nz s w h) rivers) cities rivers r2).2.2
        = some (labels, r4) ∧
      m = ⟨w, h, erode w h (buildTerrain nz s w h) rivers, labels, rivers, cities,
           (genRoads (erode w h (buildTerrain nz s w h) rivers) cities rivers r2).1,
           (genRoads (erode w h (buildTerrain nz s w h) rivers) cities rivers r2).2.1⟩ := by
  rcases hr : genRivers (buildTerrain nz s w h) s r with _ | ⟨rivers, r1⟩
  · simp [generate, hr] at hm
  · rcases hc : genCities (erode w h (buildTerrain nz s w h) rivers) s r1 with _ | ⟨cities, r2⟩
    · simp [generate, hr, hc] at hm
    · rcases hl : genLabels (erode w h (buildTerrain nz s w h) rivers) rivers
        (genRoads (erode w h (buildTerrain nz s w h) rivers) cities rivers r2).2.2
        with _ | ⟨labels, r4⟩
      · simp [generate, hr, hc, hl] at hm
      · simp only [generate, hr, hc, hl] at hm
        refine ⟨rivers, r1, cities, r2, labels, r4, ?_, ?_, ?_, ?_⟩
        · first | exact hr | rfl
        · first | exact hc | rfl
        · first | exact hl | rfl
        · exact (Option.some_inj.mp hm).symm

theorem gridAll_iff_listAll {β : Type} {P : β → Prop} {t : List (List β)} :
    ListAll (fun row => ListAll P row) t ↔ GridAll P t := by
  unfold GridAll
  rw [listAll_iff_mem]
  constructor
  · intro hA row hrow p hp
    exact (listAll_iff_mem.mp (hA row hrow)) p hp
  · intro hA row hrow
    exact listAll_iff_mem.mpr fun p hp => hA row hrow p hp

set_option maxHeartbeats 1600000 in
/-- C10 (implicit claim): the biome classifier never returns `Lake` (nor
`River`), and no cell of any generated map has biome `Lake` (the only
post-classification biome write is the river overwrite to `River`). -/
theorem c10_no_lake_ever :
    (∀ (α : Type) [LinearOrderedField α], ∀ e mo te : α,
      determine_biome e mo te ≠ Biome.Lake ∧
      determine_biome e mo te ≠ Biome.River) ∧
    (∀ (nz : Noise) (s : GenSettings ℝ) (w h : ℕ) (r : Rng),
      (generate nz s w h r).elim True fun m =>
        ListAll (fun row => ListAll (fun p => p.biome ≠ Biome.Lake) row) m.terrain) := by
  have hdb : ∀ (α : Type) [LinearOrderedField α], ∀ e mo te : α,
      determine_biome e mo te ≠ Biome.Lake ∧
      determine_biome e mo te ≠ Biome.River := by
    intro α inst e mo te
    unfold determine_biome
    split_ifs <;> exact ⟨by simp, by simp⟩
  constructor
  · exact hdb
  · intro nz s w h r
    rcases hg : generate nz s w h r with _ | m
    · simp
    · simp only [Option.elim]
      obtain ⟨rivers, r1, cities, r2, labels, r4, _, _, _, hmeq⟩ := generate_some_inv hg
      subst hmeq
      rw [gridAll_iff_listAll]
      refine gridAll_erode ⟨?_, ?_⟩ rivers (buildTerrain_gridAll nz s w h ?_)
      · intro p hp
        simpa using hp
      · intro p _
        simp
      · intro x y _ _
        simpa [buildPoint] using (hdb ℝ _ _ _).1

/-- Elevation bound of the water/land rescaling clamp. -/
theorem seaLevelClamp_bounds (b sea : ℝ) (hs : -1 < sea) :
    -1 ≤ seaLevelClamp b sea ∧ seaLevelClamp b sea ≤ 1 := by
  unfold seaLevelClamp
  split_ifs with hb
  · constructor
    · exact le_trans (by norm_num) (le_max_right _ _)
    · exact max_le (min_le_right _ _) (by norm_num)
  · have hb' := le_of_not_lt hb
    constructor
    · exact le_max_right _ _
    · refine max_le ?_ (by norm_num)
      rw [div_le_one (by linarith)]
      linarith

theorem generate_elevation_bounds (nz : Noise) (s : GenSettings ℝ) (x y w h : ℕ)
    (hl0 : 0 ≤ s.land_percentage) (hl1 : s.land_percentage ≤ 1) :
    -1 ≤ generate_elevation nz s x y w h ∧ generate_elevation nz s x y w h ≤ 1 := by
  unfold generate_elevation
  dsimp only
  apply seaLevelClamp_bounds
  nlinarith

theorem generate_moisture_bounds (nz : Noise) (x y w h : ℕ) :
    0 ≤ generate_moisture nz x y w h ∧ generate_moisture nz x y w h ≤ 1 := by
  unfold generate_moisture
  exact ⟨le_min (le_max_right _ _) (by norm_num), min_le_right _ _⟩

theorem generate_temperature_bounds (nz : Noise) (x y w h : ℕ) (e : ℝ) :
    0 ≤ generate_temperature nz x y w h e ∧ generate_temperature nz x y w h e ≤ 1 := by
  unfold generate_temperature
  exact ⟨le_min (le_max_right _ _) (by norm_num), min_le_right _ _⟩

/-- The per-point bounds demanded by the data model. -/
def PointBounds (p : TerrainPoint ℝ) : Prop :=
  (-1 ≤ p.elevation ∧ p.elevation ≤ 1) ∧
  (0 ≤ p.moisture ∧ p.moisture ≤ 1) ∧
  (0 ≤ p.temperature ∧ p.temperature ≤ 1)

theorem erosionStable_pointBounds : ErosionStable PointBounds := by
  constructor
  · intro p hp
    obtain ⟨⟨he1, he2⟩, hm, ht⟩ := hp
    exact ⟨⟨by nlinarith, by nlinarith⟩, hm, ht⟩
  · intro p hp
    obtain ⟨⟨he1, he2⟩, hm, ht⟩ := hp
    exact ⟨⟨by nlinarith, by nlinarith⟩, hm, ht⟩

/-- C9 (claim): every point of every generated map satisfies
elevation ∈ [-1, 1], moisture ∈ [0, 1], temperature ∈ [0, 1]; in
particular river erosion keeps elevations in range. -/
theorem c9_point_bounds (nz : Noise) (s : GenSettings ℝ) (w h : ℕ) (r : Rng)
    (hl0 : 0 ≤ s.land_percentage) (hl1 : s.land_percentage ≤ 1) :
    (generate nz s w h r).elim True fun m =>
      ListAll (fun row => ListAll PointBounds row) m.terrain := by
  rcases hg : generate nz s w h r with _ | m
  · simp
  · simp only [Option.elim]
    obtain ⟨rivers, r1, cities, r2, labels, r4, _, _, _, hmeq⟩ := generate_some_inv hg
    subst hmeq
    rw [gridAll_iff_listAll]
    refine gridAll_erode erosionStable_pointBounds rivers (buildTerrain_gridAll nz s w h ?_)
    intro x y _ _
    exact ⟨generate_elevation_bounds nz s x y w h hl0 hl1,
           generate_moisture_bounds nz x y w h,
           generate_temperature_bounds nz x y w h _⟩

/-- C9 witness. -/
theorem c9_point_bounds_witness :
    (generate ⟨fun _ => 0, fun _ => 0, fun _ => 0, fun _ => 0, fun _ => 0⟩
        ⟨0, 0, 0⟩ 1 1 ⟨fun _ => 0, 0⟩).elim True fun m =>
      ListAll (fun row => ListAll PointBounds row) m.terrain :=
  c9_point_bounds _ _ 1 1 _ (by norm_num) (by norm_num)

/-- The commit condition of a kept river against the pre-erosion terrain:
it ends below the sea-level threshold with at least its minimum length of
10 cells, or it pooled with at least 8 cells below the lake-forming
threshold. -/
def riverCommitOk {α : Type} [LinearOrderedField α]
    (terrain : List (List (TerrainPoint α))) (river : List (ℕ × ℕ)) : Prop :=
  match river.getLast? with
  | none => False
  | some c =>
    (10 ≤ river.length ∧ elevAt terrain c.1 c.2 < -(1/20)) ∨
    (8 ≤ river.length ∧ elevAt terrain c.1 c.2 < 1/5)

theorem riverFlow_ok {α : Type} [LinearOrderedField α]
    (terrain : List (List (TerrainPoint α))) :
    ∀ (fuel x y : ℕ) (river visited : List (ℕ × ℕ)) (out : List (ℕ × ℕ)),
      riverFlow terrain fuel x y river visited = some out →
      riverCommitOk terrain out := by
  intro fuel
  induction fuel with
  | zero => intro x y river visited out h; simp [riverFlow] at h
  | succ fuel ih =>
    intro x y river visited out h
    simp only [riverFlow] at h
    split_ifs at h with h1 h2 h3 h4
    · rw [Option.some_inj] at h
      subst h
      unfold riverCommitOk
      rw [List.getLast?_concat]
      exact Or.inl ⟨by omega, h1⟩
    · rw [Option.some_inj] at h
      subst h
      unfold riverCommitOk
      rw [List.getLast?_concat]
      exact Or.inr ⟨by omega, h4.2⟩
    · exact ih _ _ _ _ _ h

/-- Every river appended by the candidate loop satisfies the commit
condition. -/
theorem riverCandLoop_ok {α : Type} [LinearOrderedField α]
    (terrain : List (List (TerrainPoint α))) :
    ∀ (n : ℕ) (r : Rng) (acc : List (List (ℕ × ℕ))),
      (∀ riv ∈ acc, riverCommitOk terrain riv) →
      ∀ riv ∈ (riverCandLoop terrain n r acc).1, riverCommitOk terrain riv := by
  intro n
  induction n with
  | zero => intro r acc hacc; simpa [riverCandLoop] using hacc
  | succ n ih =>
    intro r acc hacc riv hriv
    rw [riverCandLoop] at hriv
    rcases hfs : riverFindStart terrain 200 r with ⟨st, r1⟩
    rw [hfs] at hriv
    cases st with
    | none => exact ih r1 acc hacc riv hriv
    | some c =>
      rcases c with ⟨sx, sy⟩
      dsimp only at hriv
      rcases hfl : riverFlow terrain 200 sx sy [] [] with _ | rivOut
      · rw [hfl] at hriv
        exact ih r1 acc hacc riv hriv
      · rw [hfl] at hriv
        refine ih r1 (acc ++ [rivOut]) ?_ riv hriv
        intro rv hrv
        rcases List.mem_append.mp hrv with hin | hin
        · exact hacc rv hin
        · rw [List.mem_singleton.mp hin]
          exact riverFlow_ok terrain 200 sx sy [] [] rivOut hfl

/-- Every river in a successful `generate_rivers` result satisfies the
commit condition. -/
theorem genRivers_ok {α : Type} [LinearOrderedField α] [FloorRing α]
    (terrain : List (List (TerrainPoint α))) (s : GenSettings α) (r : Rng)
    {rivers : List (List (ℕ × ℕ))} {r' : Rng}
    (h : genRivers terrain s r = some (rivers, r')) :
    ∀ riv ∈ rivers, riverCommitOk terrain riv := by
  unfold genRivers at h
  dsimp only at h
  split_ifs at h
  all_goals first
    | exact Option.noConfusion h
    | (have hfst := congrArg Prod.fst (Option.some_inj.mp h)
       dsimp only at hfst
       intro riv hriv
       rw [← hfst] at hriv
       first
         | simp at hriv
         | exact riverCandLoop_ok terrain _ _ [] (by simp) riv hriv)

/-- C3 (claim): every river kept in the returned map either reached a cell
below the sea-level threshold (-0.05 on pre-erosion elevations) with at
least 10 cells, or pooled with at least 8 cells ending below the
lake-forming threshold (0.2); rivers satisfying neither are discarded. -/
theorem c3_river_commit_conditions (nz : Noise) (s : GenSettings ℝ) (w h : ℕ) (r : Rng) :
    (generate nz s w h r).elim True fun m =>
      ListAll (riverCommitOk (buildTerrain nz s w h)) m.rivers := by
  rcases hg : generate nz s w h r with _ | m
  · simp
  · simp only [Option.elim]
    obtain ⟨rivers, r1, cities, r2, labels, r4, hr, _, _, hmeq⟩ := generate_some_inv hg
    subst hmeq
    rw [listAll_iff_mem]
    exact genRivers_ok (buildTerrain nz s w h) s r hr

theorem getD_mem_of_lt {β : Type} :
    ∀ (l : List β) (i : ℕ) (d : β), i < l.length → l.getD i d ∈ l
  | a :: l, 0, d, _ => List.mem_cons_self a l
  | a :: l, i + 1, d, h =>
    List.mem_cons_of_mem a (getD_mem_of_lt l i d (Nat.lt_of_succ_lt_succ h))

/-- Every position in the candidate pool carries a settlement-suitable
biome. -/
theorem validPositions_mem {α : Type} (t : List (List (TerrainPoint α))) :
    ∀ p ∈ validPositions t, cityBiomeCandidate (biomeAtD t p.1 p.2) = true := by
  have inner : ∀ (y : ℕ) (xs : List ℕ) (acc : List (ℕ × ℕ)),
      (∀ p ∈ acc, cityBiomeCandidate (biomeAtD t p.1 p.2) = true) →
      ∀ p ∈ xs.foldl
        (fun acc2 x =>
          if cityBiomeCandidate (biomeAtD t x y) ∧ cityCellWaterCheck t x y then
            acc2 ++ [(x, y)]
          else acc2) acc,
        cityBiomeCandidate (biomeAtD t p.1 p.2) = true := by
    intro y xs
    induction xs with
    | nil => intro acc hacc p hp; exact hacc p hp
    | cons x xs ih =>
      intro acc hacc p hp
      rw [List.foldl_cons] at hp
      refine ih _ ?_ p hp
      intro q hq
      split_ifs at hq with hc
      · rcases List.mem_append.mp hq with h1 | h1
        · exact hacc q h1
        · rw [List.mem_singleton.mp h1]
          exact hc.1
      · exact hacc q hq
  have outer : ∀ (ys : List ℕ) (acc : List (ℕ × ℕ)),
      (∀ p ∈ acc, cityBiomeCandidate (biomeAtD t p.1 p.2) = true) →
      ∀ p ∈ ys.foldl
        (fun acc y =>
          (List.range' 2 (wOf t - 2 - 2)).foldl
            (fun acc2 x =>
              if cityBiomeCandidate (biomeAtD t x y) ∧ cityCellWaterCheck t x y then
                acc2 ++ [(x, y)]
              else acc2) acc) acc,
        cityBiomeCandidate (biomeAtD t p.1 p.2) = true := by
    intro ys
    induction ys with
    | nil => intro acc hacc p hp; exact hacc p hp
    | cons y ys ih =>
      intro acc hacc p hp
      rw [List.foldl_cons] at hp
      exact ih _ (inner y _ acc hacc) p hp
  intro p hp
  rw [validPositions] at hp
  exact outer (List.range' 2 (hOf t - 2 - 2)) [] (by simp) p hp

/-- A successfully placed settlement sits at a position drawn from the
candidate pool. -/
theorem cityAttemptLoop_mem {α : Type} [LinearOrderedField α]
    (t : List (List (TerrainPoint α))) (valid : List (ℕ × ℕ))
    (numMajor : ℕ) (isMajor isMedium : Bool) (pop cityIdx : ℕ)
    (placed : List (ℕ × ℕ)) :
    ∀ (fuel attempts : ℕ) (r : Rng) (c : City),
      (cityAttemptLoop t valid numMajor isMajor isMedium pop cityIdx
        placed fuel attempts r).1 = some c →
      (c.x, c.y) ∈ valid := by
  intro fuel
  induction fuel with
  | zero =>
    intro attempts r c h
    rw [cityAttemptLoop] at h
    exact Option.noConfusion h
  | succ fuel ih =>
    intro attempts r c h
    rw [cityAttemptLoop] at h
    dsimp only at h
    split_ifs at h with h1
    all_goals first
      | exact ih _ _ c h
      | exact Option.noConfusion h
      | (have hpos : 0 < valid.length := List.length_pos.mpr h1.2
         have hlt : (genRangeNat 0 valid.length r).1 < valid.length := by
           show 0 + r.stream r.pos % (valid.length - 0) < valid.length
           rw [Nat.sub_zero]
           have := Nat.mod_lt (r.stream r.pos) hpos
           omega
         obtain rfl := Option.some_inj.mp h.symm
         rw [Prod.mk.eta]
         exact getD_mem_of_lt valid _ (0, 0) hlt)

/-- The placement loop keeps every settlement on a pool position. -/
theorem cityPlaceAll_mem {α : Type} [LinearOrderedField α]
    (t : List (List (TerrainPoint α))) (valid : List (ℕ × ℕ))
    (numMajor numMedium : ℕ) :
    ∀ (pops : List ℕ) (idx : ℕ) (cities : List City)
      (placed : List (ℕ × ℕ)) (r : Rng),
      (∀ c ∈ cities, (c.x, c.y) ∈ valid) →
      ∀ c ∈ (cityPlaceAll t valid numMajor numMedium pops idx cities placed r).1,
        (c.x, c.y) ∈ valid := by
  intro pops
  induction pops with
  | nil =>
    intro idx cities placed r hc c hmem
    rw [cityPlaceAll] at hmem
    exact hc c hmem
  | cons pop rest ih =>
    intro idx cities placed r hc c hmem
    rw [cityPlaceAll] at hmem
    try dsimp only at hmem
    rcases har : (cityAttemptLoop t valid numMajor (decide (idx < numMajor))
        (decide (idx < numMajor + numMedium)) pop cities.length placed 150 0 r).1
      with _ | c'
    · rw [har] at hmem
      exact ih _ _ _ _ hc c hmem
    · rw [har] at hmem
      refine ih _ _ _ _ ?_ c hmem
      intro d hd
      rcases List.mem_append.mp hd with h1 | h1
      · exact hc d h1
      · rw [List.mem_singleton.mp h1]
        exact cityAttemptLoop_mem t valid numMajor _ _ pop cities.length placed 150 0 r c' har

/-- Every settlement of a successful `generate_cities` run sits on a
candidate-pool position of the grid it was given. -/
theorem genCities_mem_valid {α : Type} [LinearOrderedField α] [FloorRing α]
    (t : List (List (TerrainPoint α))) (s : GenSettings α) (r : Rng)
    {cities : List City} {r' : Rng}
    (h : genCities t s r = some (cities, r')) :
    ∀ c ∈ cities, (c.x, c.y) ∈ validPositions t := by
  unfold genCities at h
  dsimp only at h
  split_ifs at h
  all_goals first
    | exact Option.noConfusion h
    | (have hfst := congrArg Prod.fst (Option.some_inj.mp h)
       dsimp only at hfst
       intro c hc
       rw [← hfst] at hc
       first
         | exact absurd hc (List.not_mem_nil c)
         | exact cityPlaceAll_mem t (validPositions t) _ _ _ 0 [] [] _ (by simp) c hc)

theorem cityBiomeCandidate_land :
    ∀ b, cityBiomeCandidate b = true → isWaterBiome b = false := by
  intro b
  cases b <;> decide

/-- C4 (amended part): every settlement of a generated map lies on a cell
of the final terrain whose biome is settlement-suitable — in particular
not Ocean, DeepOcean, Lake or Shore.  The spacing half of the original
claim is refuted by the grid-alignment bypass (see the counterexample):
once an attempt counter reaches 100 with the grid-alignment flag raised,
the spacing scan's early exit leaves `too_close` false and the settlement
is placed with no distance check at all, so two settlements can coincide. -/
theorem c4_cities_on_land (nz : Noise) (s : GenSettings ℝ) (w h : ℕ) (r : Rng) :
    (generate nz s w h r).elim True fun m =>
      ListAll (fun c => isWaterBiome (biomeAtD m.terrain c.x c.y) = false) m.cities := by
  rcases hg : generate nz s w h r with _ | m
  · simp
  · simp only [Option.elim]
    obtain ⟨rivers, r1, cities, r2, labels, r4, _, hcit, _, hmeq⟩ := generate_some_inv hg
    subst hmeq
    rw [listAll_iff_mem]
    intro c hc
    have hmem := genCities_mem_valid _ s r1 hcit c hc
    have hcand := validPositions_mem _ (c.x, c.y) hmem
    exact cityBiomeCandidate_land _ hcand

set_option maxRecDepth 8000 in
/-- C4 counterexample to the spacing half of the claim: on a 5×5 all-Plains
grid with city density 1/2 and the all-zeros generator, both placed
settlements land on the single pool cell (2,2).  The second placement
retries 100 times (each retry re-raising the grid-alignment flag at squared
distance 0 < 1600), then the `attempts < 100` guard expires and the
settlement is committed with `too_close` still false: two coincident
cities, violating every claimed spacing bound including the suburb floor
of 8. -/
theorem c4_spacing_counterexample :
    citiesCoords (genCities (flatPlains 5 5) ⟨0, 1/2, 0⟩ rngZero) = some [(2, 2), (2, 2)] ∧
    ¬ claimMinSpacing [(2, 2), (2, 2)] := by
  constructor
  · with_unfolding_all decide
  · unfold claimMinSpacing
    decide

theorem truncZ_zero : truncZ (0 : ℝ) = 0 := by
  unfold truncZ
  rw [if_pos le_rfl, Int.floor_zero]

theorem natTrunc_zero : natTrunc (0 : ℝ) = 0 := by
  unfold natTrunc
  rw [Int.floor_zero]
  rfl

theorem formationTypeOf_nzZero : formationTypeOf nzZero = 0 := by
  unfold formationTypeOf
  have h0 : nzZero.continent_noise (0.777, 0.333) * 100 = 0 := by
    show (0:ℝ) * 100 = 0
    ring
  rw [h0, abs_zero, natTrunc_zero]

/-- A fold whose seed is fixed by every element of the list stays there. -/
theorem foldl_fixed_on {β γ : Type} (f : γ → β → γ) (z : γ) :
    ∀ l : List β, (∀ b ∈ l, f z b = z) → l.foldl f z = z
  | [], _ => rfl
  | b :: l, h => by
    rw [List.foldl_cons, h b (List.mem_cons_self b l)]
    exact foldl_fixed_on f z l fun x hx => h x (List.mem_cons_of_mem b hx)

theorem sqrt_not_lt {a b : ℝ} (ha : 0 ≤ a) (h : b ^ 2 ≤ a) : ¬ (Real.sqrt a < b) := by
  rw [not_lt]
  nlinarith [Real.sq_sqrt ha, Real.sqrt_nonneg a]

/-- With the all-zero oracle and no land target, the volcanic chain still
raises the cell at (1/2, 1/2): the first island sits exactly there. -/
theorem volcanicChain_nzZero :
    volcanicChain nzZero 0 (1/2) (1/2) (-1) = 4/5 := by
  unfold volcanicChain
  simp only [nzZero]
  have hni : (4 + truncZ ((0:ℝ) * 6) : ℤ) = 4 := by rw [zero_mul, truncZ_zero, add_zero]
  rw [hni]
  simp only [zero_mul, mul_zero, add_zero, zero_add, Real.cos_zero, Real.sin_zero, sub_zero,
    one_mul, mul_one]
  rw [show Int.toNat 4 = 4 from rfl, show List.range 4 = [0, 1, 2, 3] from rfl]
  rw [List.foldl_cons]
  norm_num [Real.sin_zero, Real.sqrt_zero, Real.one_rpow, abs_of_pos, abs_of_neg, max_def]
  rw [show Real.sin ((1:ℝ) / 4 * Real.pi) = Real.sqrt 2 / 2 from by
        rw [show (1:ℝ)/4 * Real.pi = Real.pi/4 from by ring]; exact Real.sin_pi_div_four,
      show Real.sin ((1:ℝ) / 2 * Real.pi) = 1 from by
        rw [show (1:ℝ)/2 * Real.pi = Real.pi/2 from by ring]; exact Real.sin_pi_div_two,
      show Real.sin ((3:ℝ) / 4 * Real.pi) = Real.sqrt 2 / 2 from by
        rw [show (3:ℝ)/4 * Real.pi = Real.pi - Real.pi/4 from by ring, Real.sin_pi_sub]
        exact Real.sin_pi_div_four]
  have h1 : ¬ (Real.sqrt (9/400 + Real.sqrt 2 / 2 * (1/10) * (Real.sqrt 2 / 2 * (1/10))) < 59/800) :=
    sqrt_not_lt (by positivity)
      (by nlinarith [Real.sq_sqrt (show (0:ℝ) ≤ 2 by norm_num), Real.sqrt_nonneg 2])
  have h2 : ¬ (Real.sqrt (9/100 + (1:ℝ) * (1/10) * (1 * (1/10))) < 2/25) :=
    sqrt_not_lt (by positivity) (by norm_num)
  have h3 : ¬ (Real.sqrt (81/400 + Real.sqrt 2 / 2 * (1/10) * (Real.sqrt 2 / 2 * (1/10))) < 59/800) :=
    sqrt_not_lt (by positivity)
      (by nlinarith [Real.sq_sqrt (show (0:ℝ) ≤ 2 by norm_num), Real.sqrt_nonneg 2])
  simp only [if_neg h1, if_neg h2, if_neg h3]

/-- Cell (1,1) of the 2×2 grid under the all-zero oracle and zero land
percentage: the volcanic island pushes the final elevation to 3/4. -/
theorem generate_elevation_nzZero_11 :
    generate_elevation nzZero ⟨0, 0, 0⟩ 1 1 2 2 = 3/4 := by
  unfold generate_elevation
  dsimp only
  rw [formationTypeOf_nzZero]
  rw [Nat.cast_one, Nat.cast_ofNat]
  rw [volcanicChain_nzZero]
  simp only [nzZero]
  norm_num [seaLevelClamp, max_def, min_def, abs_of_pos, abs_of_neg, abs_zero, Real.sin_zero,
    Real.cos_zero]

/-- With zero land percentage every archipelago island has zero radius, so
the archipelago branch never raises the continent value. -/
theorem archipelago_land_zero (nz : Noise) (nx ny fs : ℝ) :
    archipelago nz 0 nx ny fs (-1) = -1 := by
  unfold archipelago
  dsimp only
  rw [foldl_fixed_point]
  · rw [if_neg]
    intro hcon
    exact absurd hcon.2 (by norm_num)
  · intro c
    rw [foldl_fixed_point]
    intro i
    rw [if_neg]
    rw [Real.sqrt_zero, mul_zero]
    exact not_lt.mpr (Real.sqrt_nonneg _)

/-- Bounded noise, archipelago formation, zero land percentage: every final
elevation is at most -7/8. -/
theorem generate_elevation_type4_land0 (nz : Noise) (hb : NoiseBounded nz)
    (hf : formationTypeOf nz = 4) (s : GenSettings ℝ) (hl : s.land_percentage = 0)
    (x y w h : ℕ) : generate_elevation nz s x y w h ≤ -(7/8) := by
  unfold generate_elevation
  dsimp only
  rw [hf, hl]
  rw [if_neg (show ¬(4 = 0) from by norm_num), if_neg (show ¬(4 = 1) from by norm_num),
      if_neg (show ¬(4 = 2) from by norm_num), if_neg (show ¬(4 = 3) from by norm_num)]
  rw [archipelago_land_zero]
  rw [if_neg (show ¬((0:ℝ) > 0.2) from by norm_num)]
  rw [if_neg (show ¬(4 = 0 ∨ 4 = 3 ∧ hasEdgeContinent nz = false) from by simp)]
  have he := (hb.1 (((x:ℝ)/(w:ℝ) * Real.cos (nz.continent_noise ((x:ℝ)/(w:ℝ) * 2, (y:ℝ)/(h:ℝ) * 2) * Real.pi) -
      (y:ℝ)/(h:ℝ) * Real.sin (nz.continent_noise ((x:ℝ)/(w:ℝ) * 2, (y:ℝ)/(h:ℝ) * 2) * Real.pi)) * 40 *
      ((w:ℝ)/160 ⊓ (h:ℝ)/120),
      ((x:ℝ)/(w:ℝ) * Real.sin (nz.continent_noise ((x:ℝ)/(w:ℝ) * 2, (y:ℝ)/(h:ℝ) * 2) * Real.pi) +
      (y:ℝ)/(h:ℝ) * Real.cos (nz.continent_noise ((x:ℝ)/(w:ℝ) * 2, (y:ℝ)/(h:ℝ) * 2) * Real.pi)) * 40 *
      ((w:ℝ)/160 ⊓ (h:ℝ)/120)))
  have hd := (hb.2.2.2.1 (((x:ℝ)/(w:ℝ)) * 80 * ((w:ℝ)/160 ⊓ (h:ℝ)/120),
      ((y:ℝ)/(h:ℝ)) * 80 * ((w:ℝ)/160 ⊓ (h:ℝ)/120)))
  rw [abs_le] at he hd
  unfold seaLevelClamp
  split_ifs with hcl
  · nlinarith [he.1, he.2, hd.1, hd.2]
  · refine max_le ?_ (by norm_num)
    rw [div_le_iff₀ (by norm_num)]
    nlinarith [he.1, he.2, hd.1, hd.2]

theorem biomeAt?_buildTerrain (nz : Noise) (s : GenSettings ℝ) {x y w h : ℕ}
    (hx : x < w) (hy : y < h) :
    biomeAt? (buildTerrain nz s w h) x y =
      some (determine_biome (generate_elevation nz s x y w h)
        (generate_moisture nz x y w h)
        (generate_temperature nz x y w h (generate_elevation nz s x y w h))) := by
  unfold biomeAt? cellAt? buildTerrain
  simp only [List.get?_map, List.get?_range hy, List.get?_range hx, Option.map_some',
    Option.some_bind]
  rfl

theorem determine_biome_snowpeaks (m t : ℝ) :
    determine_biome (3/4 : ℝ) m t = Biome.SnowPeaks := by
  unfold determine_biome
  norm_num

theorem determine_biome_deep {α : Type} [LinearOrderedField α] (e m t : α)
    (he : e < -(2/5)) : determine_biome e m t = Biome.DeepOcean := by
  unfold determine_biome
  rw [if_pos he]

theorem cellAt?_mem {β : Type} {t : List (List β)} {x y : ℕ} {p : β}
    (h : cellAt? t x y = some p) : ∃ row ∈ t, p ∈ row := by
  unfold cellAt? at h
  rcases hrow : t.get? y with _ | row
  · rw [hrow] at h
    exact Option.noConfusion h
  · rw [hrow] at h
    exact ⟨row, List.get?_mem hrow, List.get?_mem h⟩

theorem elevAt_le {α : Type} [LinearOrderedField α] {t : List (List (TerrainPoint α))}
    {c : α} (hc : 0 ≤ c) (hall : GridAll (fun p => p.elevation ≤ c) t) :
    ∀ x y, elevAt t x y ≤ c := by
  intro x y
  unfold elevAt
  rcases hcell : cellAt? t x y with _ | p
  · simpa using hc
  · obtain ⟨row, hrow, hp⟩ := cellAt?_mem hcell
    simpa using hall row hrow p hp

/-- If no cell exceeds elevation 3/20, the river start search always
fails. -/
theorem riverFindStart_none {α : Type} [LinearOrderedField α]
    {t : List (List (TerrainPoint α))} (hle : ∀ x y, elevAt t x y ≤ 3/20) :
    ∀ (fuel : ℕ) (r : Rng), (riverFindStart t fuel r).1 = none := by
  intro fuel
  induction fuel with
  | zero => intro r; rfl
  | succ fuel ih =>
    intro r
    rw [riverFindStart]
    rw [if_neg]
    · exact ih _
    · intro hcon
      exact absurd hcon.1 (not_lt.mpr (hle _ _))

theorem riverCandLoop_none {α : Type} [LinearOrderedField α]
    {t : List (List (TerrainPoint α))}
    (hns : ∀ r, (riverFindStart t 200 r).1 = none) :
    ∀ (n : ℕ) (r : Rng) (acc : List (List (ℕ × ℕ))),
      (riverCandLoop t n r acc).1 = acc := by
  intro n
  induction n with
  | zero => intro r acc; rfl
  | succ n ih =>
    intro r acc
    rw [riverCandLoop]
    rcases hfs : riverFindStart t 200 r with ⟨st, r1⟩
    have h1 := hns r
    rw [hfs] at h1
    dsimp only at h1
    subst h1
    exact ih _ _

/-- If no cell exceeds elevation 3/20, every successful `generate_rivers`
run returns an empty rivers collection. -/
theorem genRivers_empty_low {α : Type} [LinearOrderedField α] [FloorRing α]
    {t : List (List (TerrainPoint α))} (hle : ∀ x y, elevAt t x y ≤ 3/20)
    {s : GenSettings α} {r : Rng} {rivers : List (List (ℕ × ℕ))} {r' : Rng}
    (h : genRivers t s r = some (rivers, r')) : rivers = [] := by
  unfold genRivers at h
  dsimp only at h
  split_ifs at h
  all_goals first
    | exact Option.noConfusion h
    | (have hfst := congrArg Prod.fst (Option.some_inj.mp h)
       dsimp only at hfst
       first
         | exact hfst.symm
         | (rw [riverCandLoop_none (fun rr => riverFindStart_none hle 200 rr)] at hfst
            exact hfst.symm))

/-- C5 counterexample: with the all-zero (everywhere-bounded) oracle, zero
land percentage and zero densities on a 2×2 grid, generation succeeds and
cell (1,1) is SnowPeaks — one of the land biomes the claim requires to be
absent.  The formation draw selects the volcanic chain, whose island radii
stay positive at land_percentage = 0, and the first island sits exactly at
the cell's normalized position (1/2, 1/2). -/
theorem c5_counterexample :
    (generate nzZero ⟨0, 0, 0⟩ 2 2 rngZero).elim False fun m =>
      biomeAt? m.terrain 1 1 = some Biome.SnowPeaks := by
  have hr := genRivers_density_zero (buildTerrain nzZero ⟨0, 0, 0⟩ 2 2) ⟨0, 0, 0⟩ rngZero rfl
  have hc := genCities_density_zero (erode 2 2 (buildTerrain nzZero ⟨0, 0, 0⟩ 2 2) [])
    ⟨0, 0, 0⟩ rngZero rfl
  have hne : erode 2 2 (buildTerrain nzZero ⟨0, 0, 0⟩ 2 2) [] ≠ [] := by
    show buildTerrain nzZero ⟨0, 0, 0⟩ 2 2 ≠ []
    intro hnil
    have h2 := hOf_buildTerrain nzZero ⟨0, 0, 0⟩ 2 2
    rw [hnil] at h2
    simp [hOf] at h2
  obtain ⟨⟨labels, r4⟩, hl⟩ := genLabels_isSome (erode 2 2 (buildTerrain nzZero ⟨0, 0, 0⟩ 2 2) [])
    [] (genRoads (erode 2 2 (buildTerrain nzZero ⟨0, 0, 0⟩ 2 2) []) [] [] rngZero).2.2 hne
  simp only [generate, hr, hc, hl]
  simp only [Option.elim]
  show biomeAt? (buildTerrain nzZero ⟨0, 0, 0⟩ 2 2) 1 1 = some Biome.SnowPeaks
  rw [biomeAt?_buildTerrain nzZero ⟨0, 0, 0⟩ (by norm_num) (by norm_num)]
  rw [generate_elevation_nzZero_11]
  rw [determine_biome_snowpeaks]

/-- C5 (amended): for a bounded oracle whose formation draw selects the
archipelago branch, land_percentage = 0 does yield an all-water map: every
terrain cell of a successful generation is DeepOcean, so the counts of
Plains, Forest, Hills, Mountains, SnowPeaks, Beach and Desert cells are all
zero.  The original claim quantified over every seed; it fails for the
volcanic-chain formation (see the counterexample), whose islands keep a
fixed positive radius at land_percentage = 0. -/
theorem c5_land_zero_all_water (nz : Noise) (hb : NoiseBounded nz)
    (hf : formationTypeOf nz = 4) (s : GenSettings ℝ) (hl : s.land_percentage = 0)
    (w h : ℕ) (r : Rng) :
    (generate nz s w h r).elim True fun m =>
      ListAll (fun row => ListAll (fun p => p.biome = Biome.DeepOcean) row) m.terrain := by
  rcases hg : generate nz s w h r with _ | m
  · simp
  · simp only [Option.elim]
    obtain ⟨rivers, r1, cities, r2, labels, r4, hr, _, _, hmeq⟩ := generate_some_inv hg
    have hallE : GridAll (fun p => p.elevation ≤ -(7/8)) (buildTerrain nz s w h) :=
      buildTerrain_gridAll nz s w h fun x y _ _ =>
        generate_elevation_type4_land0 nz hb hf s hl x y w h
    have hle : ∀ x y, elevAt (buildTerrain nz s w h) x y ≤ 3/20 :=
      elevAt_le (by norm_num)
        (fun row hrow p hp => le_trans (hallE row hrow p hp) (by norm_num))
    have hriv : rivers = [] := genRivers_empty_low hle hr
    subst hriv
    subst hmeq
    show ListAll _ (buildTerrain nz s w h)
    rw [gridAll_iff_listAll]
    exact buildTerrain_gridAll nz s w h fun x y hxw hyh =>
      determine_biome_deep _ _ _
        (lt_of_le_of_lt (generate_elevation_type4_land0 nz hb hf s hl x y w h) (by norm_num))

/-- C5 amended-theorem witness: the archipelago oracle at a concrete
instantiation. -/
theorem c5_land_zero_all_water_witness :
    NoiseBounded nzArch ∧ formationTypeOf nzArch = 4 ∧
    ((generate nzArch ⟨0, 0, 0⟩ 2 2 rngZero).elim True fun m =>
      ListAll (fun row => ListAll (fun p => p.biome = Biome.DeepOcean) row) m.terrain) := by
  have hbArch : NoiseBounded nzArch := by
    refine ⟨fun p => ?_, fun p => ?_, fun p => ?_, fun p => ?_, fun p => ?_⟩ <;>
      · show |_| ≤ (1:ℝ)
        rw [abs_le]
        constructor <;> norm_num [nzArch]
  have hfArch : formationTypeOf nzArch = 4 := by
    unfold formationTypeOf
    have h1 : nzArch.continent_noise (0.777, 0.333) * 100 = 9/2 := by
      show (9/200 : ℝ) * 100 = 9/2
      norm_num
    rw [h1, abs_of_pos (by norm_num : (0:ℝ) < 9/2)]
    have h2 : natTrunc ((9:ℝ)/2) = 4 := by
      unfold natTrunc
      rw [show ⌊(9:ℝ)/2⌋ = 4 from by rw [Int.floor_eq_iff] <;> norm_num]
      rfl
    rw [h2]
  exact ⟨hbArch, hfArch,
    c5_land_zero_all_water nzArch hbArch hfArch ⟨0, 0, 0⟩ rfl 2 2 rngZero⟩

/-- C1 (code bug): `generate` is not a pure function of (seed, settings,
dimensions).  Step 3 of `generate_roads` picks a road-connection target by
folding over `road_network.iter()` — a `std` `HashMap` whose iteration
order is seeded per process instance, not by the world seed — keeping the
strictly nearest point.  Two network points at equal distance (for example
(3,4) and (5,0) seen from a settlement at (0,0), both at squared distance
25) make the selected target, and hence the generated road, depend on that
unspecified order: folding the same point set in the two orders yields
different targets. -/
theorem c1_road_targeting_order_dependent :
    bestRoadConnection [(3, 4), (5, 0)] 0 0 ≠ bestRoadConnection [(5, 0), (3, 4)] 0 0 := by
  have hA : bestRoadConnection [(3, 4), (5, 0)] 0 0 = (some ((3, 4), true), 25) := by
    unfold bestRoadConnection
    rw [List.foldl_cons, List.foldl_cons, List.foldl_nil]
    norm_num [FMAX]
  have hB : bestRoadConnection [(5, 0), (3, 4)] 0 0 = (some ((5, 0), true), 25) := by
    unfold bestRoadConnection
    rw [List.foldl_cons, List.foldl_cons, List.foldl_nil]
    norm_num [FMAX]
  rw [hA, hB]
  intro hcon
  have := congrArg Prod.fst hcon
  simp at this
